import Mathlib

/-!
Verification development for the Binance trading bot strategy layer
(src/validators.py, src/advanced/grid_orders.py, src/advanced/twap.py).

Numbers: the Python code computes with floats; the model uses exact
rationals so that the algebraic identities of the schedule calculators can
be settled exactly.  The one genuinely real-valued computation, the
GEOMETRIC n-th root in the grid price calculator, is modelled twice: the
rational pipeline takes the value of the root as an explicit parameter gr,
and a separate real-valued model geometric_grid_prices_real follows the
source formula exactly and is used for the claims about the geometric
schedule itself.

Errors: Python exceptions that the strategy layer distinguishes are
ValidationError and ZeroDivisionError; both abort a run. Exceptions thrown
by the injected order-submission functions are carried as message strings,
exactly like the str(e) captured by the source loops.

Effectful API calls: place_limit_order and place_market_order are
modelled as injected functions.  Because one Python call site can give a
different answer on every invocation, the injected function also receives
the index of the invocation (the loop index), which makes the model a
trace oracle for the external exchange.
-/

deriving instance DecidableEq for Except

/-- Errors raised by the validation layer of the source: ValidationError
from validators.py, and ZeroDivisionError from Python division by an
integer zero. -/
inductive PyErr where
  | validation (msg : String)
  | zeroDivision
deriving DecidableEq, Repr, Inhabited

/-- Rendering of a caught exception, as Python str(e) used by the loops. -/
def PyErr.str : PyErr → String
  | .validation msg => msg
  | .zeroDivision => "division by zero"

/-- Acknowledgement returned by a successful order placement, the fields
of the exchange response dict that the strategy layer reads. -/
structure OrderAck where
  orderId : ℕ
  status : String
  executedQty : ℚ
  cummulativeQuoteQty : ℚ
deriving DecidableEq, Repr, Inhabited

/-- Injected model of api_client.place_limit_order: invocation index,
symbol, side, quantity, price, time in force. -/
abbrev LimitSubmit := ℕ → String → String → ℚ → ℚ → String → Except String OrderAck

/-- Injected model of api_client.place_market_order: invocation index,
symbol, side, quantity. -/
abbrev MarketSubmit := ℕ → String → String → ℚ → Except String OrderAck

/-! ## Validators (src/validators.py, TradingValidator) -/

/-- Python str.upper, for the ASCII inputs of this code base. -/
def py_upper (s : String) : String := ⟨s.data.map Char.toUpper⟩

/-- Python str.strip: remove leading and trailing whitespace. -/
def py_strip (s : String) : String :=
  ⟨((s.data.dropWhile Char.isWhitespace).reverse.dropWhile Char.isWhitespace).reverse⟩

/-- TradingValidator.supported_symbols. -/
def supported_symbols : List String :=
  ["BTCUSDT", "ETHUSDT", "BNBUSDT", "ADAUSDT", "XRPUSDT",
   "SOLUSDT", "DOTUSDT", "DOGEUSDT", "AVAXUSDT", "MATICUSDT",
   "LINKUSDT", "LTCUSDT", "BCHUSDT", "UNIUSDT", "ATOMUSDT"]

/-- TradingValidator.min_quantity = 0.001. -/
def min_quantity : ℚ := 1/1000

/-- TradingValidator.max_quantity = 1000000. -/
def max_quantity : ℚ := 1000000

/-- TradingValidator.min_price = 0.0001. -/
def min_price : ℚ := 1/10000

/-- TradingValidator.max_price = 1000000. -/
def max_price : ℚ := 1000000

/-- TradingValidator.supported_sides. -/
def supported_sides : List String := ["BUY", "SELL"]

/-- TradingValidator.validate_symbol. -/
def validate_symbol (symbol : String) : Except PyErr String :=
  if symbol = "" then .error (.validation "Symbol cannot be empty")
  else
    let symbol := py_strip (py_upper symbol)
    if symbol ∉ supported_symbols then
      .error (.validation ("Symbol " ++ symbol ++ " is not supported"))
    else .ok symbol

/-- TradingValidator.validate_quantity (on an already numeric input). -/
def validate_quantity (quantity : ℚ) : Except PyErr ℚ :=
  if quantity ≤ 0 then .error (.validation "Quantity must be positive")
  else if quantity < min_quantity then
    .error (.validation "Quantity must be at least 0.001")
  else if quantity > max_quantity then
    .error (.validation "Quantity cannot exceed 1000000")
  else .ok quantity

/-- TradingValidator.validate_price (on an already numeric input). -/
def validate_price (price : ℚ) : Except PyErr ℚ :=
  if price ≤ 0 then .error (.validation "Price must be positive")
  else if price < min_price then
    .error (.validation "Price must be at least 0.0001")
  else if price > max_price then
    .error (.validation "Price cannot exceed 1000000")
  else .ok price

/-- TradingValidator.validate_side. -/
def validate_side (side : String) : Except PyErr String :=
  if side = "" then .error (.validation "Side cannot be empty")
  else
    let side := py_strip (py_upper side)
    if side ∉ supported_sides then
      .error (.validation ("Side " ++ side ++ " is not supported"))
    else .ok side


/-! ## Grid schedule calculator (grid_orders.py, GridOrderManager) -/

/-- GridOrderManager._calculate_grid_prices.  The GEOMETRIC branch of the
source computes the real root (upper/lower) ** (1/(num_grids-1)); its value
is supplied here as the parameter gr, and the branch then follows the
source formula lower * gr ^ i.  The exact real-valued geometric schedule is
modelled by geometric_grid_prices_real below.  Python raises
ZeroDivisionError when a division by zero is reached: in the ARITHMETIC
and fallback branches when num_grids = 1, and in the GEOMETRIC branch when
lower_price = 0 or num_grids = 1. -/
def calculate_grid_prices (gr : ℚ) (lower_price upper_price : ℚ)
    (num_grids : ℤ) (grid_type : String) : Except PyErr (List ℚ) :=
  if grid_type = "ARITHMETIC" then
    if num_grids = 1 then .error .zeroDivision
    else
      let price_step := (upper_price - lower_price) / ((num_grids : ℚ) - 1)
      .ok ((List.range num_grids.toNat).map fun (i : ℕ) => lower_price + (i : ℚ) * price_step)
  else if grid_type = "GEOMETRIC" then
    if lower_price = 0 then .error .zeroDivision
    else if num_grids = 1 then .error .zeroDivision
    else .ok ((List.range num_grids.toNat).map fun (i : ℕ) => lower_price * gr ^ i)
  else
    if num_grids = 1 then .error .zeroDivision
    else .ok ((List.range num_grids.toNat).map fun (i : ℕ) =>
      lower_price + ((i : ℚ) * (upper_price - lower_price)) / ((num_grids : ℚ) - 1))

/-- The root computed by the GEOMETRIC branch of the source:
(upper_price / lower_price) ** (1 / (num_grids - 1)). -/
noncomputable def geom_root (lower_price upper_price : ℝ) (num_grids : ℕ) : ℝ :=
  (upper_price / lower_price) ^ ((1 : ℝ) / ((num_grids : ℝ) - 1))

/-- The real-valued GEOMETRIC branch of GridOrderManager._calculate_grid_prices,
with the root computed exactly as in the source. -/
noncomputable def geometric_grid_prices_real (lower_price upper_price : ℝ)
    (num_grids : ℕ) : List ℝ :=
  (List.range num_grids).map fun (i : ℕ) =>
    lower_price * geom_root lower_price upper_price num_grids ^ i

/-- The ARITHMETIC grid price formula of the source:
lower + i * (upper - lower) / (num_grids - 1). -/
def arith_price (lower_price upper_price : ℚ) (num_grids : ℤ) (i : ℕ) : ℚ :=
  lower_price + (i : ℚ) * ((upper_price - lower_price) / ((num_grids : ℚ) - 1))

/-- GridOrderManager._calculate_grid_quantities: both branches of the
source distribute the total evenly. -/
def calculate_grid_quantities (total_quantity : ℚ) (num_grids : ℤ)
    (side : String) : List ℚ :=
  if side = "BOTH" then
    List.replicate num_grids.toNat (total_quantity / (num_grids : ℚ))
  else
    List.replicate num_grids.toNat (total_quantity / (num_grids : ℚ))

/-- The quantity loop of place_martingale_grid: append the current
quantity, then multiply it by the multiplier. -/
def martingale_qty_loop (multiplier : ℚ) : ℚ → ℕ → List ℚ
  | _, 0 => []
  | current_quantity, k + 1 =>
    current_quantity :: martingale_qty_loop multiplier (current_quantity * multiplier) k

/-! ## Grid execution loops and reports -/

/-- The per-leg side choice inside the place_grid_order loop: a neutral
grid alternates BUY and SELL starting with BUY at index 0. -/
def grid_leg_side (side : String) (i : ℕ) : String :=
  if side = "BOTH" then (if i % 2 = 0 then "BUY" else "SELL") else side

/-- One entry of placed_orders in place_grid_order and
place_martingale_grid. -/
structure PlacedLeg where
  grid_index : ℕ
  price : ℚ
  quantity : ℚ
  side : String
  order_id : ℕ
  status : String
deriving DecidableEq, Repr, Inhabited

/-- One entry of failed_orders in the grid entry points. -/
structure FailedLeg where
  grid_index : ℕ
  price : ℚ
  quantity : ℚ
  error : String
deriving DecidableEq, Repr, Inhabited

/-- The order placement loop of place_grid_order, over the enumerated
zip of grid prices and quantities: each leg is submitted once, a success
is appended to placed_orders, a failure to failed_orders, and the loop
continues either way. -/
def grid_place_loop (submit : LimitSubmit) (symbol side time_in_force : String) :
    List (ℕ × ℚ × ℚ) → List PlacedLeg × List FailedLeg
  | [] => ([], [])
  | (i, price, quantity) :: rest =>
    let grid_side := grid_leg_side side i
    let next := grid_place_loop submit symbol side time_in_force rest
    match submit i symbol grid_side quantity price time_in_force with
    | .ok ack => (⟨i + 1, price, quantity, grid_side, ack.orderId, ack.status⟩ :: next.1, next.2)
    | .error e => (next.1, ⟨i + 1, price, quantity, e⟩ :: next.2)

/-- The result dict of place_grid_order. -/
structure GridReport where
  symbol : String
  side : String
  total_quantity : ℚ
  upper_price : ℚ
  lower_price : ℚ
  num_grids : ℤ
  grid_type : String
  placed_orders : List PlacedLeg
  failed_orders : List FailedLeg
  success_rate : ℚ
  grid_prices : List ℚ
  grid_quantities : List ℚ
deriving DecidableEq, Repr, Inhabited

/-- GridOrderManager.place_grid_order.  The injected submit function
stands for api_client.place_limit_order; gr is the value of the geometric
root used by the GEOMETRIC branch of the price calculator. -/
def place_grid_order (submit : LimitSubmit) (gr : ℚ) (symbol side : String)
    (total_quantity upper_price lower_price : ℚ) (num_grids : ℤ)
    (grid_type : String) (time_in_force : String) : Except PyErr GridReport := do
  let symbol ← validate_symbol symbol
  let side ← validate_side side
  let total_quantity ← validate_quantity total_quantity
  let upper_price ← validate_price upper_price
  let lower_price ← validate_price lower_price
  if upper_price ≤ lower_price then
    throw (PyErr.validation "Upper price must be greater than lower price")
  if num_grids < 2 then
    throw (PyErr.validation "Number of grids must be at least 2")
  if num_grids > 50 then
    throw (PyErr.validation "Number of grids cannot exceed 50")
  if grid_type ∉ ["ARITHMETIC", "GEOMETRIC"] then
    throw (PyErr.validation ("Invalid grid type: " ++ grid_type))
  let grid_prices ← calculate_grid_prices gr lower_price upper_price num_grids grid_type
  let grid_quantities := calculate_grid_quantities total_quantity num_grids side
  let outcome := grid_place_loop submit symbol side time_in_force
    ((grid_prices.zip grid_quantities).enum)
  pure {
    symbol := symbol
    side := side
    total_quantity := total_quantity
    upper_price := upper_price
    lower_price := lower_price
    num_grids := num_grids
    grid_type := grid_type
    placed_orders := outcome.1
    failed_orders := outcome.2
    success_rate := (outcome.1.length : ℚ) / (num_grids : ℚ) * 100
    grid_prices := grid_prices
    grid_quantities := grid_quantities }

/-- The order placement loop of place_martingale_grid: like the grid loop
but every leg is submitted with the single validated side and GTC. -/
def mart_place_loop (submit : LimitSubmit) (symbol side : String) :
    List (ℕ × ℚ × ℚ) → List PlacedLeg × List FailedLeg
  | [] => ([], [])
  | (i, price, quantity) :: rest =>
    let next := mart_place_loop submit symbol side rest
    match submit i symbol side quantity price "GTC" with
    | .ok ack => (⟨i + 1, price, quantity, side, ack.orderId, ack.status⟩ :: next.1, next.2)
    | .error e => (next.1, ⟨i + 1, price, quantity, e⟩ :: next.2)

/-- The result dict of place_martingale_grid. -/
structure MartingaleReport where
  symbol : String
  side : String
  base_quantity : ℚ
  total_quantity : ℚ
  upper_price : ℚ
  lower_price : ℚ
  num_grids : ℤ
  grid_type : String
  multiplier : ℚ
  placed_orders : List PlacedLeg
  failed_orders : List FailedLeg
  success_rate : ℚ
  grid_prices : List ℚ
  grid_quantities : List ℚ
deriving DecidableEq, Repr, Inhabited

/-- GridOrderManager.place_martingale_grid. -/
def place_martingale_grid (submit : LimitSubmit) (gr : ℚ) (symbol side : String)
    (base_quantity upper_price lower_price : ℚ) (num_grids : ℤ)
    (multiplier : ℚ) (grid_type : String) : Except PyErr MartingaleReport := do
  let symbol ← validate_symbol symbol
  let side ← validate_side side
  let base_quantity ← validate_quantity base_quantity
  let upper_price ← validate_price upper_price
  let lower_price ← validate_price lower_price
  if upper_price ≤ lower_price then
    throw (PyErr.validation "Upper price must be greater than lower price")
  if multiplier ≤ 1 then
    throw (PyErr.validation "Multiplier must be greater than 1.0")
  if num_grids < 2 then
    throw (PyErr.validation "Number of grids must be at least 2")
  let grid_prices ← calculate_grid_prices gr lower_price upper_price num_grids grid_type
  let grid_quantities := martingale_qty_loop multiplier base_quantity num_grids.toNat
  let outcome := mart_place_loop submit symbol side ((grid_prices.zip grid_quantities).enum)
  pure {
    symbol := symbol
    side := side
    base_quantity := base_quantity
    total_quantity := grid_quantities.sum
    upper_price := upper_price
    lower_price := lower_price
    num_grids := num_grids
    grid_type := grid_type
    multiplier := multiplier
    placed_orders := outcome.1
    failed_orders := outcome.2
    success_rate := (outcome.1.length : ℚ) / (num_grids : ℚ) * 100
    grid_prices := grid_prices
    grid_quantities := grid_quantities }

/-- One entry of placed_orders in place_dca_grid (adds usdt_amount). -/
structure PlacedDca where
  grid_index : ℕ
  price : ℚ
  quantity : ℚ
  usdt_amount : ℚ
  side : String
  order_id : ℕ
  status : String
deriving DecidableEq, Repr, Inhabited

/-- The order placement loop of place_dca_grid. -/
def dca_place_loop (submit : LimitSubmit) (symbol side : String) (usdt_per_grid : ℚ) :
    List (ℕ × ℚ × ℚ) → List PlacedDca × List FailedLeg
  | [] => ([], [])
  | (i, price, quantity) :: rest =>
    let next := dca_place_loop submit symbol side usdt_per_grid rest
    match submit i symbol side quantity price "GTC" with
    | .ok ack =>
      (⟨i + 1, price, quantity, usdt_per_grid, side, ack.orderId, ack.status⟩ :: next.1, next.2)
    | .error e => (next.1, ⟨i + 1, price, quantity, e⟩ :: next.2)

/-- The result dict of place_dca_grid. -/
structure DcaReport where
  symbol : String
  side : String
  total_usdt : ℚ
  total_quantity : ℚ
  upper_price : ℚ
  lower_price : ℚ
  num_grids : ℤ
  grid_type : String
  usdt_per_grid : ℚ
  placed_orders : List PlacedDca
  failed_orders : List FailedLeg
  success_rate : ℚ
  grid_prices : List ℚ
  grid_quantities : List ℚ
deriving DecidableEq, Repr, Inhabited

/-- GridOrderManager.place_dca_grid.  Note that the source validates the
symbol, side, budget and price bounds, but has no check at all on
num_grids: the call proceeds straight to the price calculator, whose
division by num_grids - 1 raises ZeroDivisionError when num_grids = 1, and
the later division total_usdt / num_grids raises when num_grids = 0. -/
def place_dca_grid (submit : LimitSubmit) (gr : ℚ) (symbol side : String)
    (total_usdt upper_price lower_price : ℚ) (num_grids : ℤ)
    (grid_type : String) : Except PyErr DcaReport := do
  let symbol ← validate_symbol symbol
  let side ← validate_side side
  if total_usdt ≤ 0 then
    throw (PyErr.validation "Total USDT amount must be positive")
  let upper_price ← validate_price upper_price
  let lower_price ← validate_price lower_price
  if upper_price ≤ lower_price then
    throw (PyErr.validation "Upper price must be greater than lower price")
  let grid_prices ← calculate_grid_prices gr lower_price upper_price num_grids grid_type
  if num_grids = 0 then
    throw PyErr.zeroDivision
  let usdt_per_grid := total_usdt / (num_grids : ℚ)
  let grid_quantities := grid_prices.map fun price => usdt_per_grid / price
  let outcome := dca_place_loop submit symbol side usdt_per_grid
    ((grid_prices.zip grid_quantities).enum)
  pure {
    symbol := symbol
    side := side
    total_usdt := total_usdt
    total_quantity := grid_quantities.sum
    upper_price := upper_price
    lower_price := lower_price
    num_grids := num_grids
    grid_type := grid_type
    usdt_per_grid := usdt_per_grid
    placed_orders := outcome.1
    failed_orders := outcome.2
    success_rate := (outcome.1.length : ℚ) / (num_grids : ℚ) * 100
    grid_prices := grid_prices
    grid_quantities := grid_quantities }

/-! ## TWAP (twap.py, TWAPOrderManager) -/

/-- TWAPOrderManager._calculate_volume_profile, in exact rationals
(Python 1.5 and 0.5 are exactly 3/2 and 1/2 in binary floating point).
Every call in the source passes num_chunks = 10; with num_chunks = 1 the
weighted branches of the source would raise ZeroDivisionError, a point
this total model does not reach in any claim (all are stated for
num_chunks at least 2). -/
def calculate_volume_profile (total_quantity : ℚ) (num_chunks : ℕ)
    (profile : String) : List ℚ :=
  if profile = "UNIFORM" then
    List.replicate num_chunks (total_quantity / (num_chunks : ℚ))
  else if profile = "FRONT_LOADED" then
    let weights := (List.range num_chunks).map fun (i : ℕ) =>
      3/2 - (1/2) * (i : ℚ) / ((num_chunks : ℚ) - 1)
    let total_weight := weights.sum
    weights.map fun w => total_quantity * w / total_weight
  else if profile = "BACK_LOADED" then
    let weights := (List.range num_chunks).map fun (i : ℕ) =>
      1/2 + (1/2) * (i : ℚ) / ((num_chunks : ℚ) - 1)
    let total_weight := weights.sum
    weights.map fun w => total_quantity * w / total_weight
  else if profile = "MIDDLE_LOADED" then
    let weights := (List.range num_chunks).map fun (i : ℕ) =>
      let mid_point := ((num_chunks : ℚ) - 1) / 2
      let distance := |(i : ℚ) - mid_point|
      max (1/2) (3/2 - distance / mid_point)
    let total_weight := weights.sum
    weights.map fun w => total_quantity * w / total_weight
  else
    List.replicate num_chunks (total_quantity / (num_chunks : ℚ))

/-- Injected model of api_client.place_limit_order as called by the TWAP
loops, where the price slot carries the possibly absent limit price. -/
abbrev TwapLimitSubmit := ℕ → String → String → ℚ → Option ℚ → String → Except String OrderAck

/-- The per-chunk order placement of the TWAP loops: a MARKET chunk goes
to place_market_order, anything else to place_limit_order. -/
def twap_chunk_submit (submitM : MarketSubmit) (submitL : TwapLimitSubmit)
    (symbol side order_type : String) (price : Option ℚ) (time_in_force : String)
    (i : ℕ) (quantity : ℚ) : Except String OrderAck :=
  if order_type = "MARKET" then submitM i symbol side quantity
  else submitL i symbol side quantity price time_in_force

/-- One entry of executed_chunks in the TWAP entry points. -/
structure ExecChunk where
  chunk_index : ℕ
  quantity : ℚ
  order_id : ℕ
  status : String
  executed_qty : ℚ
  cummulative_quote_qty : ℚ
deriving DecidableEq, Repr, Inhabited

/-- One entry of failed_chunks in the TWAP entry points. -/
structure FailedChunk where
  chunk_index : ℕ
  quantity : ℚ
  error : String
deriving DecidableEq, Repr, Inhabited

/-- The running state produced by a TWAP execution loop. -/
structure TwapLoopOut where
  executed_chunks : List ExecChunk
  failed_chunks : List FailedChunk
  total_executed : ℚ
  total_cost : ℚ
deriving DecidableEq, Repr, Inhabited

/-- The chunk loop of place_twap_order: every chunk has the same
quantity; a success is appended to executed_chunks and its executedQty and
cummulativeQuoteQty are accumulated, a failure is appended to
failed_chunks, and the loop continues either way. -/
def twap_place_loop (place : ℕ → ℚ → Except String OrderAck) (chunk_quantity : ℚ) :
    List ℕ → TwapLoopOut
  | [] => ⟨[], [], 0, 0⟩
  | i :: rest =>
    let next := twap_place_loop place chunk_quantity rest
    match place i chunk_quantity with
    | .ok ack =>
      { next with
        executed_chunks :=
          ⟨i + 1, chunk_quantity, ack.orderId, ack.status,
           ack.executedQty, ack.cummulativeQuoteQty⟩ :: next.executed_chunks
        total_executed := ack.executedQty + next.total_executed
        total_cost := ack.cummulativeQuoteQty + next.total_cost }
    | .error e =>
      { next with failed_chunks := ⟨i + 1, chunk_quantity, e⟩ :: next.failed_chunks }

/-- The chunk loop of place_twap_with_volume_profile, over the enumerated
chunk quantities: the per-chunk quantity validation happens inside the
protected block, so an invalid chunk quantity becomes a failed chunk. -/
def twapvp_place_loop (place : ℕ → ℚ → Except String OrderAck) :
    List (ℕ × ℚ) → TwapLoopOut
  | [] => ⟨[], [], 0, 0⟩
  | (i, chunk_qty) :: rest =>
    let next := twapvp_place_loop place rest
    match validate_quantity chunk_qty with
    | .error err =>
      { next with failed_chunks := ⟨i + 1, chunk_qty, err.str⟩ :: next.failed_chunks }
    | .ok q =>
      match place i q with
      | .ok ack =>
        { next with
          executed_chunks :=
            ⟨i + 1, q, ack.orderId, ack.status,
             ack.executedQty, ack.cummulativeQuoteQty⟩ :: next.executed_chunks
          total_executed := ack.executedQty + next.total_executed
          total_cost := ack.cummulativeQuoteQty + next.total_cost }
      | .error e =>
        { next with failed_chunks := ⟨i + 1, q, e⟩ :: next.failed_chunks }

/-- The result dict of place_twap_order. -/
structure TwapReport where
  symbol : String
  side : String
  total_quantity : ℚ
  duration_minutes : ℤ
  num_chunks : ℤ
  order_type : String
  price : Option ℚ
  total_executed : ℚ
  total_cost : ℚ
  average_price : ℚ
  executed_chunks : List ExecChunk
  failed_chunks : List FailedChunk
  success_rate : ℚ
deriving DecidableEq, Repr, Inhabited

/-- The LIMIT-price validation step of place_twap_order: when the order
type is LIMIT the price is validated (a missing price would fail float
conversion inside validate_price); otherwise the price passes through. -/
def twap_validated_price (order_type : String) (price : Option ℚ) :
    Except PyErr (Option ℚ) :=
  if order_type = "LIMIT" then
    match price with
    | some p => Except.map some (validate_price p)
    | none => throw (PyErr.validation "Price must be a valid number")
  else pure price

/-- TWAPOrderManager.place_twap_order.  The inter-chunk sleep is a pure
pacing effect and is not part of the returned report; the computed
interval is kept as a dead let binding for fidelity. -/
def place_twap_order (submitM : MarketSubmit) (submitL : TwapLimitSubmit)
    (symbol side : String) (total_quantity : ℚ) (duration_minutes : ℤ)
    (num_chunks : ℤ) (order_type : String) (price : Option ℚ)
    (time_in_force : String) : Except PyErr TwapReport := do
  let symbol ← validate_symbol symbol
  let side ← validate_side side
  let total_quantity ← validate_quantity total_quantity
  if order_type ∉ ["MARKET", "LIMIT"] then
    throw (PyErr.validation ("Invalid order type: " ++ order_type))
  if order_type = "LIMIT" ∧ price = none then
    throw (PyErr.validation "Price is required for LIMIT orders")
  let price ← twap_validated_price order_type price
  if duration_minutes < 1 then
    throw (PyErr.validation "Duration must be at least 1 minute")
  if num_chunks < 2 then
    throw (PyErr.validation "Number of chunks must be at least 2")
  if num_chunks > 100 then
    throw (PyErr.validation "Number of chunks cannot exceed 100")
  let chunk_quantity := total_quantity / (num_chunks : ℚ)
  let _interval_seconds := ((duration_minutes : ℚ) * 60) / ((num_chunks : ℚ) - 1)
  let chunk_quantity ← validate_quantity chunk_quantity
  let out := twap_place_loop
    (twap_chunk_submit submitM submitL symbol side order_type price time_in_force)
    chunk_quantity (List.range num_chunks.toNat)
  let avg_price := if out.total_executed > 0 then out.total_cost / out.total_executed else 0
  pure {
    symbol := symbol
    side := side
    total_quantity := total_quantity
    duration_minutes := duration_minutes
    num_chunks := num_chunks
    order_type := order_type
    price := price
    total_executed := out.total_executed
    total_cost := out.total_cost
    average_price := avg_price
    executed_chunks := out.executed_chunks
    failed_chunks := out.failed_chunks
    success_rate := (out.executed_chunks.length : ℚ) / (num_chunks : ℚ) * 100 }

/-- The result dict of place_twap_with_volume_profile. -/
structure TwapProfileReport where
  symbol : String
  side : String
  total_quantity : ℚ
  duration_minutes : ℤ
  num_chunks : ℤ
  volume_profile : String
  order_type : String
  price : Option ℚ
  total_executed : ℚ
  total_cost : ℚ
  average_price : ℚ
  executed_chunks : List ExecChunk
  failed_chunks : List FailedChunk
  success_rate : ℚ
deriving DecidableEq, Repr, Inhabited

/-- TWAPOrderManager.place_twap_with_volume_profile.  num_chunks is the
hard-coded 10 of the source; there is no order_type or price validation
here, and chunk quantities are validated inside the loop. -/
def place_twap_with_volume_profile (submitM : MarketSubmit) (submitL : TwapLimitSubmit)
    (symbol side : String) (total_quantity : ℚ) (duration_minutes : ℤ)
    (volume_profile : String) (order_type : String) (price : Option ℚ) :
    Except PyErr TwapProfileReport := do
  let symbol ← validate_symbol symbol
  let side ← validate_side side
  let total_quantity ← validate_quantity total_quantity
  if volume_profile ∉ ["UNIFORM", "FRONT_LOADED", "BACK_LOADED", "MIDDLE_LOADED"] then
    throw (PyErr.validation ("Invalid volume profile: " ++ volume_profile))
  let num_chunks : ℤ := 10
  let chunk_quantities := calculate_volume_profile total_quantity 10 volume_profile
  let _interval_seconds := ((duration_minutes : ℚ) * 60) / ((num_chunks : ℚ) - 1)
  let out := twapvp_place_loop
    (twap_chunk_submit submitM submitL symbol side order_type price "GTC")
    chunk_quantities.enum
  let avg_price := if out.total_executed > 0 then out.total_cost / out.total_executed else 0
  pure {
    symbol := symbol
    side := side
    total_quantity := total_quantity
    duration_minutes := duration_minutes
    num_chunks := num_chunks
    volume_profile := volume_profile
    order_type := order_type
    price := price
    total_executed := out.total_executed
    total_cost := out.total_cost
    average_price := avg_price
    executed_chunks := out.executed_chunks
    failed_chunks := out.failed_chunks
    success_rate := (out.executed_chunks.length : ℚ) / (num_chunks : ℚ) * 100 }

/-! ## Outcome projections used to characterize the execution loops -/

/-- The submission performed for one enumerated grid leg. -/
def grid_leg_outcome (submit : LimitSubmit) (symbol side time_in_force : String)
    (leg : ℕ × ℚ × ℚ) : Except String OrderAck :=
  submit leg.1 symbol (grid_leg_side side leg.1) leg.2.2 leg.2.1 time_in_force

/-- The placed_orders entry produced by a grid leg, if it succeeds. -/
def grid_placed_of (submit : LimitSubmit) (symbol side time_in_force : String)
    (leg : ℕ × ℚ × ℚ) : Option PlacedLeg :=
  match grid_leg_outcome submit symbol side time_in_force leg with
  | .ok ack => some ⟨leg.1 + 1, leg.2.1, leg.2.2, grid_leg_side side leg.1,
      ack.orderId, ack.status⟩
  | .error _ => none

/-- The failed_orders entry produced by a grid leg, if it fails. -/
def grid_failed_of (submit : LimitSubmit) (symbol side time_in_force : String)
    (leg : ℕ × ℚ × ℚ) : Option FailedLeg :=
  match grid_leg_outcome submit symbol side time_in_force leg with
  | .ok _ => none
  | .error e => some ⟨leg.1 + 1, leg.2.1, leg.2.2, e⟩

/-- The submission performed for one TWAP chunk index. -/
def twap_chunk_outcome (place : ℕ → ℚ → Except String OrderAck)
    (chunk_quantity : ℚ) (i : ℕ) : Except String OrderAck :=
  place i chunk_quantity

/-- The executed_chunks entry produced by a TWAP chunk, if it succeeds. -/
def twap_exec_of (place : ℕ → ℚ → Except String OrderAck)
    (chunk_quantity : ℚ) (i : ℕ) : Option ExecChunk :=
  match place i chunk_quantity with
  | .ok ack => some ⟨i + 1, chunk_quantity, ack.orderId, ack.status,
      ack.executedQty, ack.cummulativeQuoteQty⟩
  | .error _ => none

/-- The failed_chunks entry produced by a TWAP chunk, if it fails. -/
def twap_failed_of (place : ℕ → ℚ → Except String OrderAck)
    (chunk_quantity : ℚ) (i : ℕ) : Option FailedChunk :=
  match place i chunk_quantity with
  | .ok _ => none
  | .error e => some ⟨i + 1, chunk_quantity, e⟩

/-! ## Volume profile weight formulas (spec section 4.1) -/

/-- FRONT_LOADED weight: 1.5 - 0.5 * i / (n - 1). -/
def front_weight (num_chunks : ℕ) (i : ℕ) : ℚ :=
  3/2 - (1/2) * (i : ℚ) / ((num_chunks : ℚ) - 1)

/-- BACK_LOADED weight: 0.5 + 0.5 * i / (n - 1). -/
def back_weight (num_chunks : ℕ) (i : ℕ) : ℚ :=
  1/2 + (1/2) * (i : ℚ) / ((num_chunks : ℚ) - 1)

/-- MIDDLE_LOADED weight: max(0.5, 1.5 - distance / mid) with
mid = (n - 1) / 2 and distance the absolute offset from mid. -/
def middle_weight (num_chunks : ℕ) (i : ℕ) : ℚ :=
  max (1/2) (3/2 - |(i : ℚ) - ((num_chunks : ℚ) - 1) / 2| / (((num_chunks : ℚ) - 1) / 2))

/-! ## Concrete material for the evaluation theorems -/

/-- Extract the report of a run already known to succeed. -/
def okOr {ε α : Type} [Inhabited α] : Except ε α → α
  | .ok a => a
  | .error _ => default

/-- A submit stub that acknowledges every order. -/
def sample_submit_ok : LimitSubmit :=
  fun i _ _ _ _ _ => .ok ⟨1000 + i, "NEW", 0, 0⟩

/-- A submit stub that rejects exactly leg index 1 (the second leg). -/
def sample_submit_fail2 : LimitSubmit :=
  fun i _ _ _ _ _ =>
    if i = 1 then .error "exchange rejected" else .ok ⟨1000 + i, "NEW", 1, 100⟩

/-- A market submit stub that fails on every chunk. -/
def sample_market_fail : MarketSubmit := fun _ _ _ _ => .error "network down"

/-- A TWAP limit submit stub that fails on every chunk. -/
def sample_twap_limit_fail : TwapLimitSubmit :=
  fun _ _ _ _ _ _ => .error "network down"

/-- A market submit stub that fills every chunk with quantity 2 at cost 100. -/
def sample_market_ok : MarketSubmit :=
  fun i _ _ _ => .ok ⟨2000 + i, "FILLED", 2, 100⟩

/-- A TWAP limit submit stub that acknowledges every chunk unfilled. -/
def sample_twap_limit_ok : TwapLimitSubmit :=
  fun i _ _ _ _ _ => .ok ⟨3000 + i, "NEW", 0, 0⟩

/-- The executed_chunks entry produced by a volume-profile chunk (the
quantity is validated inside the protected block), if it succeeds. -/
def twapvp_exec_of (place : ℕ → ℚ → Except String OrderAck)
    (x : ℕ × ℚ) : Option ExecChunk :=
  match validate_quantity x.2 with
  | .error _ => none
  | .ok q =>
    match place x.1 q with
    | .ok ack => some ⟨x.1 + 1, q, ack.orderId, ack.status,
        ack.executedQty, ack.cummulativeQuoteQty⟩
    | .error _ => none

/-- The failed_chunks entry produced by a volume-profile chunk, if the
quantity validation or the submission fails. -/
def twapvp_failed_of (place : ℕ → ℚ → Except String OrderAck)
    (x : ℕ × ℚ) : Option FailedChunk :=
  match validate_quantity x.2 with
  | .error err => some ⟨x.1 + 1, x.2, err.str⟩
  | .ok q =>
    match place x.1 q with
    | .ok _ => none
    | .error e => some ⟨x.1 + 1, q, e⟩

/-! ## Basic reduction lemmas for the Except monad -/

@[simp] theorem exc_ok_bind {ε α β : Type} (a : α) (f : α → Except ε β) :
    (Except.ok a >>= f) = f a := rfl

@[simp] theorem exc_error_bind {ε α β : Type} (e : ε) (f : α → Except ε β) :
    ((Except.error e : Except ε α) >>= f) = Except.error e := rfl

@[simp] theorem exc_throw_eq {ε α : Type} (e : ε) :
    (throw e : Except ε α) = Except.error e := rfl

@[simp] theorem exc_pure_eq {ε α : Type} (a : α) :
    (pure a : Except ε α) = Except.ok a := rfl

/-! ## Characterizations of the execution loops -/

theorem grid_place_loop_eq (submit : LimitSubmit) (symbol side tif : String)
    (L : List (ℕ × ℚ × ℚ)) :
    grid_place_loop submit symbol side tif L =
      (L.filterMap (grid_placed_of submit symbol side tif),
       L.filterMap (grid_failed_of submit symbol side tif)) := by
  induction L with
  | nil => rfl
  | cons hd tl ih =>
    obtain ⟨i, price, qty⟩ := hd
    simp only [grid_place_loop, ih, List.filterMap_cons, grid_placed_of, grid_failed_of,
      grid_leg_outcome]
    cases h : submit i symbol (grid_leg_side side i) qty price tif <;> simp [h]

theorem twap_place_loop_eq (place : ℕ → ℚ → Except String OrderAck) (q : ℚ)
    (L : List ℕ) :
    twap_place_loop place q L =
      ⟨L.filterMap (twap_exec_of place q), L.filterMap (twap_failed_of place q),
       ((L.filterMap (twap_exec_of place q)).map (fun c => c.executed_qty)).sum,
       ((L.filterMap (twap_exec_of place q)).map (fun c => c.cummulative_quote_qty)).sum⟩ := by
  induction L with
  | nil => rfl
  | cons i tl ih =>
    simp only [twap_place_loop, ih, List.filterMap_cons, twap_exec_of, twap_failed_of]
    cases h : place i q <;> simp [h]

theorem twapvp_place_loop_eq (place : ℕ → ℚ → Except String OrderAck)
    (L : List (ℕ × ℚ)) :
    twapvp_place_loop place L =
      ⟨L.filterMap (twapvp_exec_of place), L.filterMap (twapvp_failed_of place),
       ((L.filterMap (twapvp_exec_of place)).map (fun c => c.executed_qty)).sum,
       ((L.filterMap (twapvp_exec_of place)).map (fun c => c.cummulative_quote_qty)).sum⟩ := by
  induction L with
  | nil => rfl
  | cons hd tl ih =>
    obtain ⟨i, cq⟩ := hd
    simp only [twapvp_place_loop, ih, List.filterMap_cons, twapvp_exec_of, twapvp_failed_of]
    cases hv : validate_quantity cq with
    | error err => simp [hv]
    | ok q => cases h : place i q <;> simp [hv, h]

theorem mart_place_loop_sides (submit : LimitSubmit) (symbol side : String)
    (L : List (ℕ × ℚ × ℚ)) :
    ∀ p ∈ (mart_place_loop submit symbol side L).1, p.side = side := by
  induction L with
  | nil => intro p hp; simp [mart_place_loop] at hp
  | cons hd tl ih =>
    obtain ⟨i, price, qty⟩ := hd
    intro p hp
    simp only [mart_place_loop] at hp
    cases h : submit i symbol side qty price "GTC" <;> simp [h] at hp
    · exact ih p hp
    · rcases hp with hp | hp
      · rw [hp]
      · exact ih p hp

/-! ## Generic list lemmas for partition, order and membership of outcomes -/

theorem filterMap_partition_length {α β γ : Type} (f : α → Option β) (g : α → Option γ)
    (hfg : ∀ a, (f a).isSome = !(g a).isSome) (L : List α) :
    (L.filterMap f).length + (L.filterMap g).length = L.length := by
  induction L with
  | nil => rfl
  | cons a l ih =>
    have ha := hfg a
    cases hf : f a <;> cases hg : g a <;>
      simp [hf, hg, List.filterMap_cons] at ha ⊢ <;> omega

theorem filterMap_guard_sublist {α β : Type} (c : α → Bool) (g : α → β) (L : List α) :
    (L.filterMap fun a => if c a then some (g a) else none).Sublist (L.map g) := by
  induction L with
  | nil => simp
  | cons a l ih =>
    by_cases h : c a = true
    · simpa [h, List.filterMap_cons] using ih.cons₂ (g a)
    · simp only [Bool.not_eq_true] at h
      simpa [h, List.filterMap_cons] using ih.cons (g a)

theorem mem_filterMap_guard_enum {α : Type} (M : List α) (c : ℕ × α → Bool)
    (k : ℕ) (a : α) (ha : M[k]? = some a) :
    ((k + 1) ∈ M.enum.filterMap fun x => if c x then some (x.1 + 1) else none) ↔
      c (k, a) = true := by
  simp only [List.mem_filterMap]
  constructor
  · rintro ⟨⟨j, b⟩, hmem, hjb⟩
    by_cases hc : c (j, b) = true
    · simp only [hc, if_true, Option.some.injEq] at hjb
      have hjk : j = k := by omega
      subst hjk
      rw [List.mk_mem_enum_iff_getElem?, ha, Option.some.injEq] at hmem
      exact hmem ▸ hc
    · simp [hc] at hjb
  · intro hc
    refine ⟨(k, a), ?_, by simp [hc]⟩
    rw [List.mk_mem_enum_iff_getElem?]
    exact ha

theorem mem_filterMap_guard_range (n : ℕ) (c : ℕ → Bool) (k : ℕ) (hk : k < n) :
    ((k + 1) ∈ (List.range n).filterMap fun i => if c i then some (i + 1) else none) ↔
      c k = true := by
  simp only [List.mem_filterMap, List.mem_range]
  constructor
  · rintro ⟨i, hi, hik⟩
    by_cases hc : c i = true
    · simp only [hc, if_true, Option.some.injEq] at hik
      have : i = k := by omega
      subst this
      exact hc
    · simp [hc] at hik
  · intro hc
    exact ⟨k, hk, by simp [hc]⟩

/-! ## Guard forms of the outcome projections -/

theorem grid_placed_of_index (submit : LimitSubmit) (symbol side tif : String)
    (x : ℕ × ℚ × ℚ) :
    (grid_placed_of submit symbol side tif x).map (fun p => p.grid_index) =
      if (grid_leg_outcome submit symbol side tif x).isOk then some (x.1 + 1)
      else none := by
  unfold grid_placed_of
  cases grid_leg_outcome submit symbol side tif x <;> rfl

theorem grid_failed_of_index (submit : LimitSubmit) (symbol side tif : String)
    (x : ℕ × ℚ × ℚ) :
    (grid_failed_of submit symbol side tif x).map (fun f => f.grid_index) =
      if !(grid_leg_outcome submit symbol side tif x).isOk then some (x.1 + 1)
      else none := by
  unfold grid_failed_of
  cases grid_leg_outcome submit symbol side tif x <;> rfl

theorem grid_placed_failed_isSome (submit : LimitSubmit) (symbol side tif : String)
    (x : ℕ × ℚ × ℚ) :
    (grid_placed_of submit symbol side tif x).isSome =
      !(grid_failed_of submit symbol side tif x).isSome := by
  unfold grid_placed_of grid_failed_of
  cases grid_leg_outcome submit symbol side tif x <;> rfl

theorem twap_exec_of_index (place : ℕ → ℚ → Except String OrderAck) (q : ℚ) (i : ℕ) :
    (twap_exec_of place q i).map (fun c => c.chunk_index) =
      if (place i q).isOk then some (i + 1) else none := by
  unfold twap_exec_of
  cases place i q <;> rfl

theorem twap_failed_of_index (place : ℕ → ℚ → Except String OrderAck) (q : ℚ) (i : ℕ) :
    (twap_failed_of place q i).map (fun c => c.chunk_index) =
      if !(place i q).isOk then some (i + 1) else none := by
  unfold twap_failed_of
  cases place i q <;> rfl

theorem twap_exec_failed_isSome (place : ℕ → ℚ → Except String OrderAck) (q : ℚ) (i : ℕ) :
    (twap_exec_of place q i).isSome = !(twap_failed_of place q i).isSome := by
  unfold twap_exec_of twap_failed_of
  cases place i q <;> rfl

/-! ## Schedule calculator lemmas -/

theorem calculate_grid_prices_length {gr lower_price upper_price : ℚ} {n : ℤ}
    {gt : String} {ps : List ℚ}
    (h : calculate_grid_prices gr lower_price upper_price n gt = .ok ps) :
    ps.length = n.toNat := by
  unfold calculate_grid_prices at h
  split_ifs at h <;>
    first
      | exact Except.noConfusion h
      | (rw [Except.ok.injEq] at h
         rw [← h]
         simp)

theorem martingale_qty_loop_eq (m c : ℚ) (k : ℕ) :
    martingale_qty_loop m c k = (List.range k).map fun i => c * m ^ i := by
  induction k generalizing c with
  | zero => rfl
  | succ k ih =>
    rw [List.range_succ_eq_map]
    simp only [List.map_cons, List.map_map, martingale_qty_loop, ih]
    congr 1
    · simp
    · apply List.map_congr_left
      intro i _
      simp only [Function.comp_apply, pow_succ]
      ring

/-! ## Renormalized weight sums -/

theorem sum_map_renorm (t : ℚ) (l : List ℚ) (hW : l.sum ≠ 0) :
    (l.map fun w => t * w / l.sum).sum = t := by
  have h1 : (l.map fun w => t * w / l.sum) = l.map fun w => (t / l.sum) * w := by
    apply List.map_congr_left
    intro w _
    rw [mul_div_right_comm]
  have h2 := List.sum_map_mul_left l (fun w => w) (t / l.sum)
  rw [List.map_id'] at h2
  rw [h1, h2]
  exact div_mul_cancel₀ t hW

theorem sum_pos_of_half_le {l : List ℚ} (h : ∀ x ∈ l, (1/2 : ℚ) ≤ x) (hne : l ≠ []) :
    0 < l.sum := by
  cases l with
  | nil => exact absurd rfl hne
  | cons a t =>
    have ha : (1/2 : ℚ) ≤ a := h a (by simp)
    have ht : 0 ≤ t.sum :=
      List.sum_nonneg fun x hx => le_trans (by norm_num) (h x (by simp [hx]))
    simp only [List.sum_cons]
    linarith

/-! ## Success-inversion lemmas for the strategy entry points -/

theorem place_grid_order_ok_elim {submit : LimitSubmit} {gr : ℚ} {symbol side : String}
    {tq up lp : ℚ} {n : ℤ} {gt tif : String} {r : GridReport}
    (h : place_grid_order submit gr symbol side tq up lp n gt tif = .ok r) :
    ∃ sym sd tq2 up2 lp2 prices,
      validate_symbol symbol = .ok sym ∧
      validate_side side = .ok sd ∧
      validate_quantity tq = .ok tq2 ∧
      validate_price up = .ok up2 ∧
      validate_price lp = .ok lp2 ∧
      lp2 < up2 ∧ 2 ≤ n ∧ n ≤ 50 ∧
      calculate_grid_prices gr lp2 up2 n gt = .ok prices ∧
      r = { symbol := sym, side := sd, total_quantity := tq2, upper_price := up2,
            lower_price := lp2, num_grids := n, grid_type := gt,
            placed_orders := (grid_place_loop submit sym sd tif
              ((prices.zip (calculate_grid_quantities tq2 n sd)).enum)).1,
            failed_orders := (grid_place_loop submit sym sd tif
              ((prices.zip (calculate_grid_quantities tq2 n sd)).enum)).2,
            success_rate := ((grid_place_loop submit sym sd tif
              ((prices.zip (calculate_grid_quantities tq2 n sd)).enum)).1.length : ℚ)
              / (n : ℚ) * 100,
            grid_prices := prices,
            grid_quantities := calculate_grid_quantities tq2 n sd } := by
  simp only [place_grid_order] at h
  cases h1 : validate_symbol symbol with
  | error e => simp [h1] at h
  | ok sym =>
  simp only [h1, exc_ok_bind] at h
  cases h2 : validate_side side with
  | error e => simp [h2] at h
  | ok sd =>
  simp only [h2, exc_ok_bind] at h
  cases h3 : validate_quantity tq with
  | error e => simp [h3] at h
  | ok tq2 =>
  simp only [h3, exc_ok_bind] at h
  cases h4 : validate_price up with
  | error e => simp [h4] at h
  | ok up2 =>
  simp only [h4, exc_ok_bind] at h
  cases h5 : validate_price lp with
  | error e => simp [h5] at h
  | ok lp2 =>
  simp only [h5, exc_ok_bind] at h
  split at h
  · simp at h
  rename_i hle
  split at h
  · simp at h
  rename_i hlt2
  split at h
  · simp at h
  rename_i hgt50
  split at h
  · simp at h
  rename_i hgtyp
  cases h6 : calculate_grid_prices gr lp2 up2 n gt with
  | error e => simp [h6] at h
  | ok prices =>
  simp only [h6, exc_ok_bind, exc_pure_eq, Except.ok.injEq] at h
  exact ⟨sym, sd, tq2, up2, lp2, prices, rfl, rfl, rfl, rfl, rfl,
    not_le.mp hle, by omega, by omega, h6, h.symm⟩

theorem place_martingale_grid_ok_elim {submit : LimitSubmit} {gr : ℚ}
    {symbol side : String} {bq up lp : ℚ} {n : ℤ} {mult : ℚ} {gt : String}
    {r : MartingaleReport}
    (h : place_martingale_grid submit gr symbol side bq up lp n mult gt = .ok r) :
    ∃ sym sd bq2 up2 lp2 prices,
      validate_symbol symbol = .ok sym ∧
      validate_side side = .ok sd ∧
      validate_quantity bq = .ok bq2 ∧
      validate_price up = .ok up2 ∧
      validate_price lp = .ok lp2 ∧
      lp2 < up2 ∧ 1 < mult ∧ 2 ≤ n ∧
      calculate_grid_prices gr lp2 up2 n gt = .ok prices ∧
      r = { symbol := sym, side := sd, base_quantity := bq2,
            total_quantity := (martingale_qty_loop mult bq2 n.toNat).sum,
            upper_price := up2, lower_price := lp2, num_grids := n,
            grid_type := gt, multiplier := mult,
            placed_orders := (mart_place_loop submit sym sd
              ((prices.zip (martingale_qty_loop mult bq2 n.toNat)).enum)).1,
            failed_orders := (mart_place_loop submit sym sd
              ((prices.zip (martingale_qty_loop mult bq2 n.toNat)).enum)).2,
            success_rate := ((mart_place_loop submit sym sd
              ((prices.zip (martingale_qty_loop mult bq2 n.toNat)).enum)).1.length : ℚ)
              / (n : ℚ) * 100,
            grid_prices := prices,
            grid_quantities := martingale_qty_loop mult bq2 n.toNat } := by
  simp only [place_martingale_grid] at h
  cases h1 : validate_symbol symbol with
  | error e => simp [h1] at h
  | ok sym =>
  simp only [h1, exc_ok_bind] at h
  cases h2 : validate_side side with
  | error e => simp [h2] at h
  | ok sd =>
  simp only [h2, exc_ok_bind] at h
  cases h3 : validate_quantity bq with
  | error e => simp [h3] at h
  | ok bq2 =>
  simp only [h3, exc_ok_bind] at h
  cases h4 : validate_price up with
  | error e => simp [h4] at h
  | ok up2 =>
  simp only [h4, exc_ok_bind] at h
  cases h5 : validate_price lp with
  | error e => simp [h5] at h
  | ok lp2 =>
  simp only [h5, exc_ok_bind] at h
  split at h
  · simp at h
  rename_i hle
  split at h
  · simp at h
  rename_i hmult
  split at h
  · simp at h
  rename_i hlt2
  cases h6 : calculate_grid_prices gr lp2 up2 n gt with
  | error e => simp [h6] at h
  | ok prices =>
  simp only [h6, exc_ok_bind, exc_pure_eq, Except.ok.injEq] at h
  exact ⟨sym, sd, bq2, up2, lp2, prices, rfl, rfl, rfl, rfl, rfl,
    not_le.mp hle, not_le.mp hmult, by omega, h6, h.symm⟩

theorem place_dca_grid_ok_elim {submit : LimitSubmit} {gr : ℚ}
    {symbol side : String} {tu up lp : ℚ} {n : ℤ} {gt : String} {r : DcaReport}
    (h : place_dca_grid submit gr symbol side tu up lp n gt = .ok r) :
    ∃ sym sd up2 lp2 prices,
      validate_symbol symbol = .ok sym ∧
      validate_side side = .ok sd ∧
      0 < tu ∧
      validate_price up = .ok up2 ∧
      validate_price lp = .ok lp2 ∧
      lp2 < up2 ∧ n ≠ 0 ∧
      calculate_grid_prices gr lp2 up2 n gt = .ok prices ∧
      r = { symbol := sym, side := sd, total_usdt := tu,
            total_quantity := (prices.map fun price => tu / (n : ℚ) / price).sum,
            upper_price := up2, lower_price := lp2, num_grids := n,
            grid_type := gt, usdt_per_grid := tu / (n : ℚ),
            placed_orders := (dca_place_loop submit sym sd (tu / (n : ℚ))
              ((prices.zip (prices.map fun price => tu / (n : ℚ) / price)).enum)).1,
            failed_orders := (dca_place_loop submit sym sd (tu / (n : ℚ))
              ((prices.zip (prices.map fun price => tu / (n : ℚ) / price)).enum)).2,
            success_rate := ((dca_place_loop submit sym sd (tu / (n : ℚ))
              ((prices.zip (prices.map fun price => tu / (n : ℚ) / price)).enum)).1.length : ℚ)
              / (n : ℚ) * 100,
            grid_prices := prices,
            grid_quantities := prices.map fun price => tu / (n : ℚ) / price } := by
  simp only [place_dca_grid] at h
  cases h1 : validate_symbol symbol with
  | error e => simp [h1] at h
  | ok sym =>
  simp only [h1, exc_ok_bind] at h
  cases h2 : validate_side side with
  | error e => simp [h2] at h
  | ok sd =>
  simp only [h2, exc_ok_bind] at h
  split at h
  · simp at h
  rename_i htu
  cases h4 : validate_price up with
  | error e => simp [h4] at h
  | ok up2 =>
  simp only [h4, exc_ok_bind] at h
  cases h5 : validate_price lp with
  | error e => simp [h5] at h
  | ok lp2 =>
  simp only [h5, exc_ok_bind] at h
  split at h
  · simp at h
  rename_i hle
  cases h6 : calculate_grid_prices gr lp2 up2 n gt with
  | error e => simp [h6] at h
  | ok prices =>
  simp only [h6, exc_ok_bind] at h
  split at h
  · simp at h
  rename_i hn0
  simp only [exc_pure_eq, exc_ok_bind, Except.ok.injEq] at h
  exact ⟨sym, sd, up2, lp2, prices, rfl, rfl, not_le.mp htu, rfl, rfl,
    not_le.mp hle, hn0, h6, h.symm⟩

theorem place_twap_order_ok_elim {submitM : MarketSubmit} {submitL : TwapLimitSubmit}
    {symbol side : String} {tq : ℚ} {dur n : ℤ} {ot : String} {price : Option ℚ}
    {tif : String} {r : TwapReport}
    (h : place_twap_order submitM submitL symbol side tq dur n ot price tif = .ok r) :
    ∃ sym sd tq2 price2 cq,
      validate_symbol symbol = .ok sym ∧
      validate_side side = .ok sd ∧
      validate_quantity tq = .ok tq2 ∧
      (ot = "MARKET" ∨ ot = "LIMIT") ∧
      twap_validated_price ot price = .ok price2 ∧
      1 ≤ dur ∧ 2 ≤ n ∧ n ≤ 100 ∧
      validate_quantity (tq2 / (n : ℚ)) = .ok cq ∧
      r = { symbol := sym, side := sd, total_quantity := tq2,
            duration_minutes := dur, num_chunks := n, order_type := ot,
            price := price2,
            total_executed := (twap_place_loop
              (twap_chunk_submit submitM submitL sym sd ot price2 tif) cq
              (List.range n.toNat)).total_executed,
            total_cost := (twap_place_loop
              (twap_chunk_submit submitM submitL sym sd ot price2 tif) cq
              (List.range n.toNat)).total_cost,
            average_price :=
              if (twap_place_loop
                  (twap_chunk_submit submitM submitL sym sd ot price2 tif) cq
                  (List.range n.toNat)).total_executed > 0 then
                (twap_place_loop
                  (twap_chunk_submit submitM submitL sym sd ot price2 tif) cq
                  (List.range n.toNat)).total_cost /
                (twap_place_loop
                  (twap_chunk_submit submitM submitL sym sd ot price2 tif) cq
                  (List.range n.toNat)).total_executed
              else 0,
            executed_chunks := (twap_place_loop
              (twap_chunk_submit submitM submitL sym sd ot price2 tif) cq
              (List.range n.toNat)).executed_chunks,
            failed_chunks := (twap_place_loop
              (twap_chunk_submit submitM submitL sym sd ot price2 tif) cq
              (List.range n.toNat)).failed_chunks,
            success_rate := ((twap_place_loop
              (twap_chunk_submit submitM submitL sym sd ot price2 tif) cq
              (List.range n.toNat)).executed_chunks.length : ℚ) / (n : ℚ) * 100 } := by
  simp only [place_twap_order] at h
  cases h1 : validate_symbol symbol with
  | error e => simp [h1] at h
  | ok sym =>
  simp only [h1, exc_ok_bind] at h
  cases h2 : validate_side side with
  | error e => simp [h2] at h
  | ok sd =>
  simp only [h2, exc_ok_bind] at h
  cases h3 : validate_quantity tq with
  | error e => simp [h3] at h
  | ok tq2 =>
  simp only [h3, exc_ok_bind] at h
  split at h
  · simp at h
  rename_i hot
  split at h
  · simp at h
  rename_i hlimnone
  cases h4 : twap_validated_price ot price with
  | error e => simp [h4] at h
  | ok price2 =>
  simp only [h4, exc_ok_bind] at h
  split at h
  · simp at h
  rename_i hdur
  split at h
  · simp at h
  rename_i hn2
  split at h
  · simp at h
  rename_i hn100
  cases h5 : validate_quantity (tq2 / (n : ℚ)) with
  | error e => simp [h5] at h
  | ok cq =>
  simp only [h5, exc_ok_bind, exc_pure_eq, Except.ok.injEq] at h
  refine ⟨sym, sd, tq2, price2, cq, rfl, rfl, rfl, ?_, rfl, by omega, by omega, by omega,
    h5, h.symm⟩
  by_contra hc
  push_neg at hc
  exact hot (by simp [hc.1, hc.2])

theorem place_twap_vp_ok_elim {submitM : MarketSubmit} {submitL : TwapLimitSubmit}
    {symbol side : String} {tq : ℚ} {dur : ℤ} {vp ot : String} {price : Option ℚ}
    {r : TwapProfileReport}
    (h : place_twap_with_volume_profile submitM submitL symbol side tq dur vp ot price
        = .ok r) :
    ∃ sym sd tq2,
      validate_symbol symbol = .ok sym ∧
      validate_side side = .ok sd ∧
      validate_quantity tq = .ok tq2 ∧
      vp ∈ ["UNIFORM", "FRONT_LOADED", "BACK_LOADED", "MIDDLE_LOADED"] ∧
      r = { symbol := sym, side := sd, total_quantity := tq2,
            duration_minutes := dur, num_chunks := 10, volume_profile := vp,
            order_type := ot, price := price,
            total_executed := (twapvp_place_loop
              (twap_chunk_submit submitM submitL sym sd ot price "GTC")
              (calculate_volume_profile tq2 10 vp).enum).total_executed,
            total_cost := (twapvp_place_loop
              (twap_chunk_submit submitM submitL sym sd ot price "GTC")
              (calculate_volume_profile tq2 10 vp).enum).total_cost,
            average_price :=
              if (twapvp_place_loop
                  (twap_chunk_submit submitM submitL sym sd ot price "GTC")
                  (calculate_volume_profile tq2 10 vp).enum).total_executed > 0 then
                (twapvp_place_loop
                  (twap_chunk_submit submitM submitL sym sd ot price "GTC")
                  (calculate_volume_profile tq2 10 vp).enum).total_cost /
                (twapvp_place_loop
                  (twap_chunk_submit submitM submitL sym sd ot price "GTC")
                  (calculate_volume_profile tq2 10 vp).enum).total_executed
              else 0,
            executed_chunks := (twapvp_place_loop
              (twap_chunk_submit submitM submitL sym sd ot price "GTC")
              (calculate_volume_profile tq2 10 vp).enum).executed_chunks,
            failed_chunks := (twapvp_place_loop
              (twap_chunk_submit submitM submitL sym sd ot price "GTC")
              (calculate_volume_profile tq2 10 vp).enum).failed_chunks,
            success_rate := ((twapvp_place_loop
              (twap_chunk_submit submitM submitL sym sd ot price "GTC")
              (calculate_volume_profile tq2 10 vp).enum).executed_chunks.length : ℚ)
              / ((10 : ℤ) : ℚ) * 100 } := by
  simp only [place_twap_with_volume_profile] at h
  cases h1 : validate_symbol symbol with
  | error e => simp [h1] at h
  | ok sym =>
  simp only [h1, exc_ok_bind] at h
  cases h2 : validate_side side with
  | error e => simp [h2] at h
  | ok sd =>
  simp only [h2, exc_ok_bind] at h
  cases h3 : validate_quantity tq with
  | error e => simp [h3] at h
  | ok tq2 =>
  simp only [h3, exc_ok_bind] at h
  split at h
  · simp at h
  rename_i hvp
  simp only [exc_pure_eq, exc_ok_bind, Except.ok.injEq] at h
  refine ⟨sym, sd, tq2, rfl, rfl, rfl, ?_, h.symm⟩
  exact not_not.mp hvp

@[simp] theorem exc_map_ok {ε α β : Type} (f : α → β) (a : α) :
    Except.map f (Except.ok a : Except ε α) = Except.ok (f a) := rfl

@[simp] theorem exc_map_error {ε α β : Type} (f : α → β) (e : ε) :
    Except.map f (Except.error e : Except ε α) = Except.error e := rfl

/-- Every grid type other than GEOMETRIC is routed to the arithmetic
spacing formula of _calculate_grid_prices: the explicit ARITHMETIC branch
and the silent fallback branch compute the same schedule. -/
theorem calculate_grid_prices_fallback (gr lower_price upper_price : ℚ)
    (n : ℤ) (gt : String) (hgt : gt ≠ "GEOMETRIC") :
    calculate_grid_prices gr lower_price upper_price n gt =
      calculate_grid_prices gr lower_price upper_price n "ARITHMETIC" := by
  by_cases ha : gt = "ARITHMETIC"
  · subst ha; rfl
  · unfold calculate_grid_prices
    rw [if_neg ha, if_neg hgt, if_pos rfl]
    by_cases hn : n = 1
    · simp [hn]
    · rw [if_neg hn, if_neg hn]
      congr 1
      apply List.map_congr_left
      intro i _
      rw [mul_div_assoc]

/-- C3: the specification says a place_grid_order run with side BOTH is
accepted and submits leg i with BUY for even i and SELL for odd i.  In the
source, TradingValidator.validate_side accepts only BUY and SELL, so a
BOTH run is rejected by validation before any leg is attempted, although
the docstring of place_grid_order advertises BOTH and the loop contains
the (unreachable) alternation branch, which does start with BUY at even
indices.  Evaluation of the model at a fully valid BOTH request shows the
ValidationError. -/
theorem c3_both_side_rejected :
    place_grid_order sample_submit_ok 0 "BTCUSDT" "BOTH" 1 200 100 5 "ARITHMETIC" "GTC"
      = .error (.validation "Side BOTH is not supported") ∧
    validate_side "BOTH" = .error (.validation "Side BOTH is not supported") ∧
    grid_leg_side "BOTH" 0 = "BUY" ∧ grid_leg_side "BOTH" 1 = "SELL" ∧
    grid_leg_side "BOTH" 2 = "BUY" ∧ grid_leg_side "BOTH" 3 = "SELL" := by
  refine ⟨by decide, by decide, rfl, rfl, rfl, rfl⟩

/-- C4: for valid bounds and n at least 2, the ARITHMETIC schedule is
exactly the n prices lower + i * (upper - lower) / (n - 1); it has length
n, starts at lower, ends at upper, and is strictly increasing. -/
theorem c4_arithmetic_grid_prices (gr lower_price upper_price : ℚ) (n : ℤ)
    (hl : 0 < lower_price) (hu : lower_price < upper_price) (hn : 2 ≤ n) :
    calculate_grid_prices gr lower_price upper_price n "ARITHMETIC" =
      .ok ((List.range n.toNat).map (arith_price lower_price upper_price n)) ∧
    ((List.range n.toNat).map (arith_price lower_price upper_price n)).length = n.toNat ∧
    arith_price lower_price upper_price n 0 = lower_price ∧
    arith_price lower_price upper_price n (n.toNat - 1) = upper_price ∧
    (∀ i j : ℕ, i < j →
      arith_price lower_price upper_price n i < arith_price lower_price upper_price n j) ∧
    ((List.range n.toNat).map (arith_price lower_price upper_price n)).Sorted (· < ·) := by
  have hne : ((n : ℚ) - 1) ≠ 0 := by
    have : (2 : ℚ) ≤ (n : ℚ) := by exact_mod_cast hn
    linarith
  have hpos : 0 < (n : ℚ) - 1 := by
    have : (2 : ℚ) ≤ (n : ℚ) := by exact_mod_cast hn
    linarith
  have hstep : 0 < (upper_price - lower_price) / ((n : ℚ) - 1) :=
    div_pos (by linarith) hpos
  have hmono : ∀ i j : ℕ, i < j →
      arith_price lower_price upper_price n i < arith_price lower_price upper_price n j := by
    intro i j hij
    unfold arith_price
    have hij2 : (i : ℚ) < (j : ℚ) := by exact_mod_cast hij
    have := mul_lt_mul_of_pos_right hij2 hstep
    linarith
  refine ⟨?_, by simp, ?_, ?_, hmono, ?_⟩
  · unfold calculate_grid_prices
    rw [if_pos rfl, if_neg (by omega : ¬ n = 1)]
    rfl
  · simp [arith_price]
  · unfold arith_price
    have hcast : ((n.toNat - 1 : ℕ) : ℚ) = (n : ℚ) - 1 := by
      have h1 : 1 ≤ n.toNat := by omega
      have h2 : ((n.toNat : ℚ)) = (n : ℚ) := by
        exact_mod_cast congrArg (fun z : ℤ => (z : ℚ))
          (Int.toNat_of_nonneg (by omega : (0 : ℤ) ≤ n))
      rw [Nat.cast_sub h1, Nat.cast_one, h2]
    rw [hcast]
    field_simp
  · rw [List.Sorted, List.pairwise_map]
    exact (List.pairwise_lt_range n.toNat).imp fun hij => hmono _ _ hij

/-- Concrete instance for c4_arithmetic_grid_prices: the bounds 100 and
200 with five grids satisfy the hypotheses, and the schedule is the
worked example [100, 125, 150, 175, 200] of the specification. -/
theorem c4_arithmetic_grid_prices_witness :
    (0 : ℚ) < 100 ∧ (100 : ℚ) < 200 ∧ (2 : ℤ) ≤ 5 ∧
    calculate_grid_prices 0 100 200 5 "ARITHMETIC" = .ok [100, 125, 150, 175, 200] ∧
    (calculate_grid_prices 0 100 200 5 "ARITHMETIC" =
      .ok ((List.range (5 : ℤ).toNat).map (arith_price 100 200 5)) ∧
    ((List.range (5 : ℤ).toNat).map (arith_price 100 200 5)).length = (5 : ℤ).toNat ∧
    arith_price 100 200 5 0 = 100 ∧
    arith_price 100 200 5 ((5 : ℤ).toNat - 1) = 200 ∧
    (∀ i j : ℕ, i < j → arith_price 100 200 5 i < arith_price 100 200 5 j) ∧
    ((List.range (5 : ℤ).toNat).map (arith_price 100 200 5)).Sorted (· < ·)) :=
  ⟨by norm_num, by norm_num, by norm_num,
   by norm_num [calculate_grid_prices, List.range_succ,
     show (5 : ℤ).toNat = 5 from rfl],
   c4_arithmetic_grid_prices 0 100 200 5 (by norm_num) (by norm_num) (by norm_num)⟩

/-- C10: the price calculator routes every grid type other than GEOMETRIC
(ARITHMETIC or any other string) to the arithmetic spacing formula without
raising an error, and place_martingale_grid and place_dca_grid never
validate their grid_type argument: a run with an arbitrary grid type
behaves exactly like the ARITHMETIC run, apart from echoing the given
grid_type string in the report. -/
theorem c10_grid_type_fallback :
    (∀ (gr lower_price upper_price : ℚ) (n : ℤ) (gt : String), gt ≠ "GEOMETRIC" →
      calculate_grid_prices gr lower_price upper_price n gt =
        calculate_grid_prices gr lower_price upper_price n "ARITHMETIC") ∧
    (∀ (submit : LimitSubmit) (gr : ℚ) (symbol side : String) (bq up lp : ℚ)
        (n : ℤ) (mult : ℚ) (gt : String), gt ≠ "GEOMETRIC" →
      place_martingale_grid submit gr symbol side bq up lp n mult gt =
        Except.map (fun r => { r with grid_type := gt })
          (place_martingale_grid submit gr symbol side bq up lp n mult "ARITHMETIC")) ∧
    (∀ (submit : LimitSubmit) (gr : ℚ) (symbol side : String) (tu up lp : ℚ)
        (n : ℤ) (gt : String), gt ≠ "GEOMETRIC" →
      place_dca_grid submit gr symbol side tu up lp n gt =
        Except.map (fun r => { r with grid_type := gt })
          (place_dca_grid submit gr symbol side tu up lp n "ARITHMETIC")) := by
  refine ⟨fun gr l u n gt hgt => calculate_grid_prices_fallback gr l u n gt hgt, ?_, ?_⟩
  · intro submit gr symbol side bq up lp n mult gt hgt
    simp only [place_martingale_grid]
    cases h1 : validate_symbol symbol with
    | error e => simp
    | ok sym =>
    simp only [exc_ok_bind]
    cases h2 : validate_side side with
    | error e => simp
    | ok sd =>
    simp only [exc_ok_bind]
    cases h3 : validate_quantity bq with
    | error e => simp
    | ok bq2 =>
    simp only [exc_ok_bind]
    cases h4 : validate_price up with
    | error e => simp
    | ok up2 =>
    simp only [exc_ok_bind]
    cases h5 : validate_price lp with
    | error e => simp
    | ok lp2 =>
    simp only [exc_ok_bind]
    by_cases hle : up2 ≤ lp2
    · simp [hle]
    by_cases hmult : mult ≤ 1
    · simp [hle, hmult]
    by_cases hn : n < 2
    · simp [hle, hmult, hn]
    simp only [hle, hmult, hn, if_false, ite_false, if_neg, not_false_iff]
    rw [calculate_grid_prices_fallback gr lp2 up2 n gt hgt]
    cases hp : calculate_grid_prices gr lp2 up2 n "ARITHMETIC" with
    | error e => simp [hle, hmult, hn]
    | ok prices => simp [hle, hmult, hn]
  · intro submit gr symbol side tu up lp n gt hgt
    simp only [place_dca_grid]
    cases h1 : validate_symbol symbol with
    | error e => simp
    | ok sym =>
    simp only [exc_ok_bind]
    cases h2 : validate_side side with
    | error e => simp
    | ok sd =>
    simp only [exc_ok_bind]
    by_cases htu : tu ≤ 0
    · simp [htu]
    cases h4 : validate_price up with
    | error e => simp [htu]
    | ok up2 =>
    simp only [exc_ok_bind]
    cases h5 : validate_price lp with
    | error e => simp [htu]
    | ok lp2 =>
    simp only [exc_ok_bind]
    by_cases hup : up2 ≤ lp2
    · simp [htu, hup]
    rw [calculate_grid_prices_fallback gr lp2 up2 n gt hgt]
    cases hp : calculate_grid_prices gr lp2 up2 n "ARITHMETIC" with
    | error e => simp [htu, hup]
    | ok prices =>
    by_cases hn : n = 0
    · simp [htu, hup, hn]
    · simp [htu, hup, hn]

/-! ## Concrete validator evaluations used by the instance theorems -/

theorem validate_symbol_btc : validate_symbol "BTCUSDT" = .ok "BTCUSDT" := by decide

theorem validate_side_buy : validate_side "BUY" = .ok "BUY" := by decide

theorem validate_side_sell : validate_side "SELL" = .ok "SELL" := by decide

theorem validate_quantity_one : validate_quantity 1 = .ok 1 := by
  norm_num [validate_quantity, min_quantity, max_quantity]

theorem validate_quantity_ten : validate_quantity 10 = .ok 10 := by
  norm_num [validate_quantity, min_quantity, max_quantity]

theorem validate_quantity_two : validate_quantity 2 = .ok 2 := by
  norm_num [validate_quantity, min_quantity, max_quantity]

theorem validate_price_100 : validate_price 100 = .ok 100 := by
  norm_num [validate_price, min_price, max_price]

theorem validate_price_200 : validate_price 200 = .ok 200 := by
  norm_num [validate_price, min_price, max_price]

/-- Concrete instance for c10_grid_type_fallback at the unvalidated grid
type BANANA. -/
theorem c10_grid_type_fallback_witness :
    ("BANANA" : String) ≠ "GEOMETRIC" ∧
    calculate_grid_prices 0 100 200 5 "BANANA" =
      calculate_grid_prices 0 100 200 5 "ARITHMETIC" ∧
    place_martingale_grid sample_submit_ok 0 "BTCUSDT" "BUY" 1 200 100 4 2 "BANANA" =
      Except.map (fun r => { r with grid_type := "BANANA" })
        (place_martingale_grid sample_submit_ok 0 "BTCUSDT" "BUY" 1 200 100 4 2 "ARITHMETIC") ∧
    place_dca_grid sample_submit_ok 0 "BTCUSDT" "BUY" 100 200 100 4 "BANANA" =
      Except.map (fun r => { r with grid_type := "BANANA" })
        (place_dca_grid sample_submit_ok 0 "BTCUSDT" "BUY" 100 200 100 4 "ARITHMETIC") :=
  ⟨by decide,
   c10_grid_type_fallback.1 0 100 200 5 "BANANA" (by decide),
   c10_grid_type_fallback.2.1 sample_submit_ok 0 "BTCUSDT" "BUY" 1 200 100 4 2 "BANANA"
     (by decide),
   c10_grid_type_fallback.2.2 sample_submit_ok 0 "BTCUSDT" "BUY" 100 200 100 4 "BANANA"
     (by decide)⟩

/-! ## Success-introduction lemmas for the strategy entry points -/

theorem eq_ok_okOr {ε α : Type} [Inhabited α] {e : Except ε α} (h : ∃ a, e = .ok a) :
    e = .ok (okOr e) := by
  rcases h with ⟨a, ha⟩
  rw [ha]
  rfl

theorem place_grid_order_succeeds (submit : LimitSubmit) (gr : ℚ)
    {symbol side : String} {tq up lp : ℚ} {n : ℤ} {gt : String} (tif : String)
    {sym sd : String} {tq2 up2 lp2 : ℚ} {prices : List ℚ}
    (h1 : validate_symbol symbol = .ok sym)
    (h2 : validate_side side = .ok sd)
    (h3 : validate_quantity tq = .ok tq2)
    (h4 : validate_price up = .ok up2)
    (h5 : validate_price lp = .ok lp2)
    (hle : lp2 < up2) (hn2 : 2 ≤ n) (hn50 : n ≤ 50)
    (hgt : gt ∈ ["ARITHMETIC", "GEOMETRIC"])
    (h6 : calculate_grid_prices gr lp2 up2 n gt = .ok prices) :
    ∃ r, place_grid_order submit gr symbol side tq up lp n gt tif = .ok r := by
  have hle2 : ¬ up2 ≤ lp2 := not_le.mpr hle
  have hn2b : ¬ n < 2 := by omega
  have hn50b : ¬ n > 50 := by omega
  have hgtb : ¬ gt ∉ ["ARITHMETIC", "GEOMETRIC"] := not_not_intro hgt
  simp only [place_grid_order, h1, h2, h3, h4, h5, exc_ok_bind, hle2, hn2b, hn50b, hgtb,
    if_false, ite_false, if_neg, not_false_iff, h6, exc_pure_eq]
  exact ⟨_, rfl⟩

theorem place_martingale_grid_succeeds (submit : LimitSubmit) (gr : ℚ)
    {symbol side : String} {bq up lp : ℚ} {n : ℤ} {mult : ℚ} {gt : String}
    {sym sd : String} {bq2 up2 lp2 : ℚ} {prices : List ℚ}
    (h1 : validate_symbol symbol = .ok sym)
    (h2 : validate_side side = .ok sd)
    (h3 : validate_quantity bq = .ok bq2)
    (h4 : validate_price up = .ok up2)
    (h5 : validate_price lp = .ok lp2)
    (hle : lp2 < up2) (hmult : 1 < mult) (hn2 : 2 ≤ n)
    (h6 : calculate_grid_prices gr lp2 up2 n gt = .ok prices) :
    ∃ r, place_martingale_grid submit gr symbol side bq up lp n mult gt = .ok r := by
  have hle2 : ¬ up2 ≤ lp2 := not_le.mpr hle
  have hm2 : ¬ mult ≤ 1 := not_le.mpr hmult
  have hn2b : ¬ n < 2 := by omega
  simp only [place_martingale_grid, h1, h2, h3, h4, h5, exc_ok_bind, hle2, hm2, hn2b,
    if_false, ite_false, if_neg, not_false_iff, h6, exc_pure_eq]
  exact ⟨_, rfl⟩

theorem place_dca_grid_succeeds (submit : LimitSubmit) (gr : ℚ)
    {symbol side : String} {tu up lp : ℚ} {n : ℤ} {gt : String}
    {sym sd : String} {up2 lp2 : ℚ} {prices : List ℚ}
    (h1 : validate_symbol symbol = .ok sym)
    (h2 : validate_side side = .ok sd)
    (htu : 0 < tu)
    (h4 : validate_price up = .ok up2)
    (h5 : validate_price lp = .ok lp2)
    (hle : lp2 < up2) (hn : n ≠ 0)
    (h6 : calculate_grid_prices gr lp2 up2 n gt = .ok prices) :
    ∃ r, place_dca_grid submit gr symbol side tu up lp n gt = .ok r := by
  have htu2 : ¬ tu ≤ 0 := not_le.mpr htu
  have hle2 : ¬ up2 ≤ lp2 := not_le.mpr hle
  simp only [place_dca_grid, h1, h2, h4, h5, exc_ok_bind, htu2, hle2, hn,
    if_false, ite_false, if_neg, not_false_iff, h6, exc_pure_eq]
  exact ⟨_, rfl⟩

theorem place_twap_order_succeeds (submitM : MarketSubmit) (submitL : TwapLimitSubmit)
    {symbol side : String} {tq : ℚ} {dur n : ℤ} {ot : String} {price : Option ℚ}
    (tif : String) {sym sd : String} {tq2 cq : ℚ} {price2 : Option ℚ}
    (h1 : validate_symbol symbol = .ok sym)
    (h2 : validate_side side = .ok sd)
    (h3 : validate_quantity tq = .ok tq2)
    (hot : ot ∈ ["MARKET", "LIMIT"])
    (hlim : ¬(ot = "LIMIT" ∧ price = none))
    (h4 : twap_validated_price ot price = .ok price2)
    (hdur : 1 ≤ dur) (hn2 : 2 ≤ n) (hn100 : n ≤ 100)
    (h5 : validate_quantity (tq2 / (n : ℚ)) = .ok cq) :
    ∃ r, place_twap_order submitM submitL symbol side tq dur n ot price tif = .ok r := by
  have hotb : ¬ ot ∉ ["MARKET", "LIMIT"] := not_not_intro hot
  have hdurb : ¬ dur < 1 := by omega
  have hn2b : ¬ n < 2 := by omega
  have hn100b : ¬ n > 100 := by omega
  simp only [place_twap_order, h1, h2, h3, exc_ok_bind, hotb, hlim, hdurb, hn2b, hn100b,
    if_false, ite_false, if_neg, not_false_iff, h4, h5, exc_pure_eq]
  exact ⟨_, rfl⟩

theorem place_twap_vp_succeeds (submitM : MarketSubmit) (submitL : TwapLimitSubmit)
    {symbol side : String} {tq : ℚ} (dur : ℤ) {vp : String} (ot : String)
    (price : Option ℚ) {sym sd : String} {tq2 : ℚ}
    (h1 : validate_symbol symbol = .ok sym)
    (h2 : validate_side side = .ok sd)
    (h3 : validate_quantity tq = .ok tq2)
    (hvp : vp ∈ ["UNIFORM", "FRONT_LOADED", "BACK_LOADED", "MIDDLE_LOADED"]) :
    ∃ r, place_twap_with_volume_profile submitM submitL symbol side tq dur vp ot price
        = .ok r := by
  have hvpb : ¬ vp ∉ ["UNIFORM", "FRONT_LOADED", "BACK_LOADED", "MIDDLE_LOADED"] :=
    not_not_intro hvp
  simp only [place_twap_with_volume_profile, h1, h2, h3, exc_ok_bind, hvpb,
    if_false, ite_false, if_neg, not_false_iff, exc_pure_eq]
  exact ⟨_, rfl⟩

/-- The ARITHMETIC branch of the price calculator in closed form. -/
theorem calculate_grid_prices_arith (gr lower_price upper_price : ℚ) (n : ℤ)
    (hn : n ≠ 1) :
    calculate_grid_prices gr lower_price upper_price n "ARITHMETIC" =
      .ok ((List.range n.toNat).map (arith_price lower_price upper_price n)) := by
  unfold calculate_grid_prices
  rw [if_pos rfl, if_neg hn]
  rfl

/-- C7: place_martingale_grid rejects a multiplier at most 1.0 with the
dedicated ValidationError (the multiplier check runs before the leg-count
check and before any schedule computation), and every successful run has
leg quantities base * multiplier ^ i and submits all legs with the single
validated side of the request. -/
theorem c7_martingale_sizing :
    (∀ (submit : LimitSubmit) (gr : ℚ) (symbol side : String) (bq up lp : ℚ)
        (n : ℤ) (mult : ℚ) (gt : String) (sym sd : String) (bq2 up2 lp2 : ℚ),
      validate_symbol symbol = .ok sym →
      validate_side side = .ok sd →
      validate_quantity bq = .ok bq2 →
      validate_price up = .ok up2 →
      validate_price lp = .ok lp2 →
      lp2 < up2 → mult ≤ 1 →
      place_martingale_grid submit gr symbol side bq up lp n mult gt =
        .error (.validation "Multiplier must be greater than 1.0")) ∧
    (∀ (submit : LimitSubmit) (gr : ℚ) (symbol side : String) (bq up lp : ℚ)
        (n : ℤ) (mult : ℚ) (gt : String) (r : MartingaleReport),
      place_martingale_grid submit gr symbol side bq up lp n mult gt = .ok r →
      1 < mult ∧
      r.grid_quantities =
        (List.range n.toNat).map (fun i => r.base_quantity * mult ^ i) ∧
      ∀ p ∈ r.placed_orders, p.side = r.side) := by
  constructor
  · intro submit gr symbol side bq up lp n mult gt sym sd bq2 up2 lp2
      h1 h2 h3 h4 h5 hle hmult
    have hle2 : ¬ up2 ≤ lp2 := not_le.mpr hle
    simp [place_martingale_grid, h1, h2, h3, h4, h5, hle2, hmult]
  · intro submit gr symbol side bq up lp n mult gt r h
    obtain ⟨sym, sd, bq2, up2, lp2, prices, _, _, _, _, _, _, hmult, _, _, hr⟩ :=
      place_martingale_grid_ok_elim h
    subst hr
    refine ⟨hmult, ?_, ?_⟩
    · simp only [martingale_qty_loop_eq]
    · exact mart_place_loop_sides submit sym sd _

/-- With a single grid level every branch of the price calculator divides
by num_grids - 1 = 0, so the Python code raises ZeroDivisionError. -/
theorem calculate_grid_prices_one (gr lower_price upper_price : ℚ) (gt : String) :
    calculate_grid_prices gr lower_price upper_price 1 gt = .error .zeroDivision := by
  unfold calculate_grid_prices
  split_ifs <;> simp_all

/-- C2 (amended): leg-count preconditions are enforced unevenly across the
entry points.  place_grid_order rejects n outside [2, 50] and
place_twap_order rejects n outside [2, 100] with a ValidationError before
any placement; place_martingale_grid rejects only n below 2 and accepts
every n at least 2 (no upper bound); place_dca_grid has no leg-count check
at all, so n = 1 reaches the division by n - 1 inside schedule computation
and the run aborts with ZeroDivisionError instead of a ValidationError. -/
theorem c2_leg_count_validation :
    (∀ (submit : LimitSubmit) (gr : ℚ) (symbol side : String) (tq up lp : ℚ)
        (n : ℤ) (gt tif : String) (sym sd : String) (tq2 up2 lp2 : ℚ),
      validate_symbol symbol = .ok sym →
      validate_side side = .ok sd →
      validate_quantity tq = .ok tq2 →
      validate_price up = .ok up2 →
      validate_price lp = .ok lp2 →
      lp2 < up2 → (n < 2 ∨ n > 50) →
      ∃ msg, place_grid_order submit gr symbol side tq up lp n gt tif =
        .error (.validation msg)) ∧
    (∀ (submitM : MarketSubmit) (submitL : TwapLimitSubmit) (symbol side : String)
        (tq : ℚ) (dur n : ℤ) (ot : String) (price price2 : Option ℚ) (tif : String)
        (sym sd : String) (tq2 : ℚ),
      validate_symbol symbol = .ok sym →
      validate_side side = .ok sd →
      validate_quantity tq = .ok tq2 →
      ot ∈ ["MARKET", "LIMIT"] → ¬(ot = "LIMIT" ∧ price = none) →
      twap_validated_price ot price = .ok price2 →
      1 ≤ dur → (n < 2 ∨ n > 100) →
      ∃ msg, place_twap_order submitM submitL symbol side tq dur n ot price tif =
        .error (.validation msg)) ∧
    (∀ (submit : LimitSubmit) (gr : ℚ) (symbol side : String) (bq up lp : ℚ)
        (n : ℤ) (mult : ℚ) (gt : String) (sym sd : String) (bq2 up2 lp2 : ℚ),
      validate_symbol symbol = .ok sym →
      validate_side side = .ok sd →
      validate_quantity bq = .ok bq2 →
      validate_price up = .ok up2 →
      validate_price lp = .ok lp2 →
      lp2 < up2 → 1 < mult → n < 2 →
      ∃ msg, place_martingale_grid submit gr symbol side bq up lp n mult gt =
        .error (.validation msg)) ∧
    (∀ (submit : LimitSubmit) (gr : ℚ) (symbol side : String) (bq up lp : ℚ)
        (n : ℤ) (mult : ℚ) (sym sd : String) (bq2 up2 lp2 : ℚ),
      validate_symbol symbol = .ok sym →
      validate_side side = .ok sd →
      validate_quantity bq = .ok bq2 →
      validate_price up = .ok up2 →
      validate_price lp = .ok lp2 →
      lp2 < up2 → 1 < mult → 2 ≤ n →
      ∃ r, place_martingale_grid submit gr symbol side bq up lp n mult "ARITHMETIC" =
        .ok r) ∧
    (∀ (submit : LimitSubmit) (gr : ℚ) (symbol side : String) (tu up lp : ℚ)
        (gt : String) (sym sd : String) (up2 lp2 : ℚ),
      validate_symbol symbol = .ok sym →
      validate_side side = .ok sd →
      0 < tu →
      validate_price up = .ok up2 →
      validate_price lp = .ok lp2 →
      lp2 < up2 →
      place_dca_grid submit gr symbol side tu up lp 1 gt = .error .zeroDivision) := by
  refine ⟨?_, ?_, ?_, ?_, ?_⟩
  · intro submit gr symbol side tq up lp n gt tif sym sd tq2 up2 lp2
      h1 h2 h3 h4 h5 hle hn
    have hle2 : ¬ up2 ≤ lp2 := not_le.mpr hle
    rcases hn with hn | hn
    · exact ⟨"Number of grids must be at least 2",
        by simp [place_grid_order, h1, h2, h3, h4, h5, hle2, hn]⟩
    · have hn2 : ¬ n < 2 := by omega
      exact ⟨"Number of grids cannot exceed 50",
        by simp [place_grid_order, h1, h2, h3, h4, h5, hle2, hn, hn2]⟩
  · intro submitM submitL symbol side tq dur n ot price price2 tif sym sd tq2
      h1 h2 h3 hot hlim h4 hdur hn
    have hdurb : ¬ dur < 1 := by omega
    have hot2 : ot = "MARKET" ∨ ot = "LIMIT" := by simpa using hot
    rcases hn with hn | hn
    · refine ⟨"Number of chunks must be at least 2", ?_⟩
      rcases hot2 with rfl | rfl <;>
        simp [place_twap_order, h1, h2, h3, hlim, h4, hdurb, hn] <;>
        simpa using hlim
    · have hn2 : ¬ n < 2 := by omega
      refine ⟨"Number of chunks cannot exceed 100", ?_⟩
      rcases hot2 with rfl | rfl <;>
        simp [place_twap_order, h1, h2, h3, hlim, h4, hdurb, hn, hn2] <;>
        simpa using hlim
  · intro submit gr symbol side bq up lp n mult gt sym sd bq2 up2 lp2
      h1 h2 h3 h4 h5 hle hmult hn
    have hle2 : ¬ up2 ≤ lp2 := not_le.mpr hle
    have hm2 : ¬ mult ≤ 1 := not_le.mpr hmult
    exact ⟨"Number of grids must be at least 2",
      by simp [place_martingale_grid, h1, h2, h3, h4, h5, hle2, hm2, hn]⟩
  · intro submit gr symbol side bq up lp n mult sym sd bq2 up2 lp2
      h1 h2 h3 h4 h5 hle hmult hn
    exact place_martingale_grid_succeeds submit gr h1 h2 h3 h4 h5 hle hmult hn
      (calculate_grid_prices_arith gr lp2 up2 n (by omega))
  · intro submit gr symbol side tu up lp gt sym sd up2 lp2 h1 h2 htu h4 h5 hle
    have htu2 : ¬ tu ≤ 0 := not_le.mpr htu
    have hle2 : ¬ up2 ≤ lp2 := not_le.mpr hle
    simp [place_dca_grid, h1, h2, htu2, h4, h5, hle2, calculate_grid_prices_one]

/-- C2 counterexample: place_dca_grid with a fully valid request and a
single grid level does not raise a ValidationError before schedule
computation, as the claim demands for every entry point; instead the run
reaches the division by num_grids - 1 inside _calculate_grid_prices and
aborts with ZeroDivisionError. -/
theorem c2_counterexample :
    place_dca_grid sample_submit_ok 0 "BTCUSDT" "BUY" 100 200 100 1 "ARITHMETIC" =
      .error PyErr.zeroDivision := by
  norm_num [place_dca_grid, validate_symbol_btc, validate_side_buy,
    validate_price_100, validate_price_200, calculate_grid_prices_one]

theorem twap_validated_price_market :
    twap_validated_price "MARKET" none = .ok none := by decide

/-- Concrete instances for c2_leg_count_validation: one grid run with one
level, one TWAP run with 101 chunks, one martingale run with one level,
one accepted martingale run with 60 levels, and the unvalidated DCA run
with one level. -/
theorem c2_leg_count_validation_witness :
    (∃ msg, place_grid_order sample_submit_ok 0 "BTCUSDT" "BUY" 1 200 100 1
      "ARITHMETIC" "GTC" = .error (.validation msg)) ∧
    (∃ msg, place_twap_order sample_market_ok sample_twap_limit_ok "BTCUSDT" "SELL"
      10 30 101 "MARKET" none "GTC" = .error (.validation msg)) ∧
    (∃ msg, place_martingale_grid sample_submit_ok 0 "BTCUSDT" "BUY" 1 200 100 1 2
      "ARITHMETIC" = .error (.validation msg)) ∧
    (∃ r, place_martingale_grid sample_submit_ok 0 "BTCUSDT" "BUY" 1 200 100 60 2
      "ARITHMETIC" = .ok r) ∧
    place_dca_grid sample_submit_ok 0 "BTCUSDT" "BUY" 100 200 100 1 "GEOMETRIC" =
      .error PyErr.zeroDivision :=
  ⟨c2_leg_count_validation.1 sample_submit_ok 0 "BTCUSDT" "BUY" 1 200 100 1
      "ARITHMETIC" "GTC" "BTCUSDT" "BUY" 1 200 100
      validate_symbol_btc validate_side_buy validate_quantity_one
      validate_price_200 validate_price_100 (by norm_num) (by norm_num),
   c2_leg_count_validation.2.1 sample_market_ok sample_twap_limit_ok "BTCUSDT" "SELL"
      10 30 101 "MARKET" none none "GTC" "BTCUSDT" "SELL" 10
      validate_symbol_btc validate_side_sell validate_quantity_ten
      (by decide) (by decide) twap_validated_price_market (by norm_num) (by norm_num),
   c2_leg_count_validation.2.2.1 sample_submit_ok 0 "BTCUSDT" "BUY" 1 200 100 1 2
      "ARITHMETIC" "BTCUSDT" "BUY" 1 200 100
      validate_symbol_btc validate_side_buy validate_quantity_one
      validate_price_200 validate_price_100 (by norm_num) (by norm_num) (by norm_num),
   c2_leg_count_validation.2.2.2.1 sample_submit_ok 0 "BTCUSDT" "BUY" 1 200 100 60 2
      "BTCUSDT" "BUY" 1 200 100
      validate_symbol_btc validate_side_buy validate_quantity_one
      validate_price_200 validate_price_100 (by norm_num) (by norm_num) (by norm_num),
   c2_leg_count_validation.2.2.2.2 sample_submit_ok 0 "BTCUSDT" "BUY" 100 200 100
      "GEOMETRIC" "BTCUSDT" "BUY" 200 100
      validate_symbol_btc validate_side_buy (by norm_num)
      validate_price_200 validate_price_100 (by norm_num)⟩

/-- Concrete instance for c7_martingale_sizing: multiplier 1 is rejected,
and the accepted run with base 1 and multiplier 2 over four legs carries
quantities 1, 2, 4, 8 on the single BUY side. -/
theorem c7_martingale_sizing_witness :
    ((1 : ℚ) ≤ 1 ∧ (100 : ℚ) < 200 ∧ 1 < (2 : ℚ)) ∧
    place_martingale_grid sample_submit_ok 0 "BTCUSDT" "BUY" 1 200 100 4 1 "ARITHMETIC" =
      .error (.validation "Multiplier must be greater than 1.0") ∧
    place_martingale_grid sample_submit_ok 0 "BTCUSDT" "BUY" 1 200 100 4 2 "ARITHMETIC" =
      .ok (okOr (place_martingale_grid sample_submit_ok 0 "BTCUSDT" "BUY"
        1 200 100 4 2 "ARITHMETIC")) ∧
    (1 < (2 : ℚ) ∧
     (okOr (place_martingale_grid sample_submit_ok 0 "BTCUSDT" "BUY"
        1 200 100 4 2 "ARITHMETIC")).grid_quantities =
       (List.range (4 : ℤ).toNat).map
         (fun i => (okOr (place_martingale_grid sample_submit_ok 0 "BTCUSDT" "BUY"
           1 200 100 4 2 "ARITHMETIC")).base_quantity * (2 : ℚ) ^ i) ∧
     ∀ p ∈ (okOr (place_martingale_grid sample_submit_ok 0 "BTCUSDT" "BUY"
        1 200 100 4 2 "ARITHMETIC")).placed_orders,
       p.side = (okOr (place_martingale_grid sample_submit_ok 0 "BTCUSDT" "BUY"
        1 200 100 4 2 "ARITHMETIC")).side) := by
  have hok : place_martingale_grid sample_submit_ok 0 "BTCUSDT" "BUY" 1 200 100 4 2
      "ARITHMETIC" = .ok (okOr (place_martingale_grid sample_submit_ok 0 "BTCUSDT" "BUY"
        1 200 100 4 2 "ARITHMETIC")) :=
    eq_ok_okOr (place_martingale_grid_succeeds sample_submit_ok 0
      validate_symbol_btc validate_side_buy validate_quantity_one
      validate_price_200 validate_price_100 (by norm_num) (by norm_num) (by norm_num)
      (calculate_grid_prices_arith 0 100 200 4 (by decide)))
  exact ⟨⟨le_refl 1, by norm_num, by norm_num⟩,
    c7_martingale_sizing.1 sample_submit_ok 0 "BTCUSDT" "BUY" 1 200 100 4 1 "ARITHMETIC"
      "BTCUSDT" "BUY" 1 200 100 validate_symbol_btc validate_side_buy validate_quantity_one
      validate_price_200 validate_price_100 (by norm_num) (le_refl 1),
    hok,
    c7_martingale_sizing.2 sample_submit_ok 0 "BTCUSDT" "BUY" 1 200 100 4 2 "ARITHMETIC"
      _ hok⟩

theorem validate_price_ok {p p2 : ℚ} (h : validate_price p = .ok p2) :
    p2 = p ∧ 0 < p := by
  unfold validate_price at h
  split_ifs at h with h1 h2 h3
  rw [Except.ok.injEq] at h
  exact ⟨h.symm, not_le.mp h1⟩

/-- All prices of a successfully computed schedule are positive, for
positive bounds, a positive geometric root and at least two levels. -/
theorem calculate_grid_prices_pos {gr lower_price upper_price : ℚ} {n : ℤ}
    {gt : String} {ps : List ℚ} (hl : 0 < lower_price)
    (hu : lower_price < upper_price) (hgr : 0 < gr) (hn : 2 ≤ n)
    (h : calculate_grid_prices gr lower_price upper_price n gt = .ok ps) :
    ∀ p ∈ ps, 0 < p := by
  have hden : 0 < (n : ℚ) - 1 := by
    have : (2 : ℚ) ≤ (n : ℚ) := by exact_mod_cast hn
    linarith
  unfold calculate_grid_prices at h
  split_ifs at h <;>
    first
      | exact Except.noConfusion h
      | (rw [Except.ok.injEq] at h
         subst h
         intro p hp
         simp only [List.mem_map, List.mem_range] at hp
         obtain ⟨i, hi, rfl⟩ := hp
         first
           | exact add_pos_of_pos_of_nonneg hl
               (mul_nonneg (Nat.cast_nonneg i)
                 (le_of_lt (div_pos (by linarith) hden)))
           | exact mul_pos hl (pow_pos hgr i)
           | exact add_pos_of_pos_of_nonneg hl
               (div_nonneg (mul_nonneg (Nat.cast_nonneg i) (by linarith))
                 (le_of_lt hden)))

/-- Budget decomposition of quantities inversely proportional to prices:
the quote value of the whole schedule is one per-leg budget per leg. -/
theorem sum_zip_inv_mul (U : ℚ) (l : List ℚ) (hl : ∀ p ∈ l, p ≠ 0) :
    (((l.map fun p => U / p).zip l).map (fun q => q.1 * q.2)).sum =
      (l.length : ℚ) * U := by
  induction l with
  | nil => simp
  | cons a t ih =>
    have ha : a ≠ 0 := hl a (by simp)
    have ih2 := ih fun p hp => hl p (by simp [hp])
    simp only [List.map_cons, List.zip_cons_cons, List.sum_cons, ih2,
      div_mul_cancel₀ U ha, List.length_cons]
    push_cast
    ring

/-- C8 (amended): for every successful DCA run with at least two levels (a
positive geometric root standing for the real root in the GEOMETRIC
branch), each leg quantity is the per-leg quote budget divided by that
price, and the schedule quote value, the sum of quantity times price over
all legs, is exactly the total budget. -/
theorem c8_dca_budget_preservation (submit : LimitSubmit) (gr : ℚ)
    (symbol side : String) (tu up lp : ℚ) (n : ℤ) (gt : String) (r : DcaReport)
    (hgr : 0 < gr) (hn : 2 ≤ n)
    (h : place_dca_grid submit gr symbol side tu up lp n gt = .ok r) :
    r.grid_quantities = r.grid_prices.map (fun p => r.total_usdt / (n : ℚ) / p) ∧
    ((r.grid_quantities.zip r.grid_prices).map (fun q => q.1 * q.2)).sum =
      r.total_usdt := by
  obtain ⟨sym, sd, up2, lp2, prices, _, _, htu, h4, h5, hle, _, h6, hr⟩ :=
    place_dca_grid_ok_elim h
  obtain ⟨rfl, hup2⟩ := validate_price_ok h4
  obtain ⟨rfl, hlp2⟩ := validate_price_ok h5
  have hpos := calculate_grid_prices_pos hlp2 hle hgr hn h6
  subst hr
  refine ⟨rfl, ?_⟩
  have hne : ∀ p ∈ prices, p ≠ 0 := fun p hp => ne_of_gt (hpos p hp)
  rw [sum_zip_inv_mul (tu / (n : ℚ)) prices hne]
  have hlen : prices.length = n.toNat := calculate_grid_prices_length h6
  rw [hlen]
  have hcast : ((n.toNat : ℕ) : ℚ) = (n : ℚ) := by
    exact_mod_cast congrArg (fun z : ℤ => (z : ℚ))
      (Int.toNat_of_nonneg (by omega : (0 : ℤ) ≤ n))
  rw [hcast]
  have hn0 : (n : ℚ) ≠ 0 := by
    have : (2 : ℚ) ≤ (n : ℚ) := by exact_mod_cast hn
    linarith
  field_simp

/-- C8 counterexample: the claim quantifies over every leg count, but
place_dca_grid performs no leg-count validation; with num_grids = -1 and a
fully valid budget and bounds the run returns a successful report whose
schedule is empty, so the sum of quantity times price is 0 and not the
total budget of 100. -/
theorem c8_counterexample :
    place_dca_grid sample_submit_ok 0 "BTCUSDT" "BUY" 100 200 100 (-1) "ARITHMETIC" =
      .ok { symbol := "BTCUSDT", side := "BUY", total_usdt := 100, total_quantity := 0,
            upper_price := 200, lower_price := 100, num_grids := -1,
            grid_type := "ARITHMETIC", usdt_per_grid := -100,
            placed_orders := [], failed_orders := [], success_rate := 0,
            grid_prices := [], grid_quantities := [] } ∧
    (((([] : List ℚ).zip ([] : List ℚ)).map fun q => q.1 * q.2).sum ≠ (100 : ℚ)) := by
  constructor
  · norm_num [place_dca_grid, validate_symbol_btc, validate_side_buy,
      validate_price_100, validate_price_200, calculate_grid_prices,
      show ((-1 : ℤ).toNat = 0) from rfl, dca_place_loop, calculate_grid_quantities]
  · norm_num

/-- Concrete instance for c8_dca_budget_preservation: a four-level DCA run
over bounds 100 and 200 with budget 100. -/
theorem c8_dca_budget_preservation_witness :
    (0 : ℚ) < 1 ∧ (2 : ℤ) ≤ 4 ∧
    place_dca_grid sample_submit_ok 1 "BTCUSDT" "BUY" 100 200 100 4 "ARITHMETIC" =
      .ok (okOr (place_dca_grid sample_submit_ok 1 "BTCUSDT" "BUY"
        100 200 100 4 "ARITHMETIC")) ∧
    ((okOr (place_dca_grid sample_submit_ok 1 "BTCUSDT" "BUY"
        100 200 100 4 "ARITHMETIC")).grid_quantities =
      (okOr (place_dca_grid sample_submit_ok 1 "BTCUSDT" "BUY"
        100 200 100 4 "ARITHMETIC")).grid_prices.map
        (fun p => (okOr (place_dca_grid sample_submit_ok 1 "BTCUSDT" "BUY"
          100 200 100 4 "ARITHMETIC")).total_usdt / ((4 : ℤ) : ℚ) / p) ∧
     (((okOr (place_dca_grid sample_submit_ok 1 "BTCUSDT" "BUY"
        100 200 100 4 "ARITHMETIC")).grid_quantities.zip
       (okOr (place_dca_grid sample_submit_ok 1 "BTCUSDT" "BUY"
        100 200 100 4 "ARITHMETIC")).grid_prices).map (fun q => q.1 * q.2)).sum =
      (okOr (place_dca_grid sample_submit_ok 1 "BTCUSDT" "BUY"
        100 200 100 4 "ARITHMETIC")).total_usdt) := by
  have hok : place_dca_grid sample_submit_ok 1 "BTCUSDT" "BUY" 100 200 100 4
      "ARITHMETIC" = .ok (okOr (place_dca_grid sample_submit_ok 1 "BTCUSDT" "BUY"
        100 200 100 4 "ARITHMETIC")) :=
    eq_ok_okOr (place_dca_grid_succeeds sample_submit_ok 1
      validate_symbol_btc validate_side_buy (by norm_num)
      validate_price_200 validate_price_100 (by norm_num) (by decide)
      (calculate_grid_prices_arith 1 100 200 4 (by decide)))
  exact ⟨by norm_num, by norm_num, hok,
    c8_dca_budget_preservation sample_submit_ok 1 "BTCUSDT" "BUY" 100 200 100 4
      "ARITHMETIC" _ (by norm_num) (by norm_num) hok⟩

/-- C6: for every total quantity and every chunk count of at least 2, the
volume-profile calculator returns exactly the renormalized weighted
quantities total * weight[i] / sum of weights for the three weighted
profiles, the uniform profile returns equal chunks, and in every case the
chunk quantities sum exactly to the total quantity. -/
theorem c6_volume_profile_renormalization (tq : ℚ) (n : ℕ) (hn : 2 ≤ n) :
    (calculate_volume_profile tq n "UNIFORM" = List.replicate n (tq / (n : ℚ)) ∧
     (calculate_volume_profile tq n "UNIFORM").sum = tq) ∧
    (calculate_volume_profile tq n "FRONT_LOADED" =
       ((List.range n).map (front_weight n)).map
         (fun w => tq * w / ((List.range n).map (front_weight n)).sum) ∧
     (calculate_volume_profile tq n "FRONT_LOADED").sum = tq) ∧
    (calculate_volume_profile tq n "BACK_LOADED" =
       ((List.range n).map (back_weight n)).map
         (fun w => tq * w / ((List.range n).map (back_weight n)).sum) ∧
     (calculate_volume_profile tq n "BACK_LOADED").sum = tq) ∧
    (calculate_volume_profile tq n "MIDDLE_LOADED" =
       ((List.range n).map (middle_weight n)).map
         (fun w => tq * w / ((List.range n).map (middle_weight n)).sum) ∧
     (calculate_volume_profile tq n "MIDDLE_LOADED").sum = tq) := by
  have hn0 : (n : ℚ) ≠ 0 := by
    have : (2 : ℚ) ≤ (n : ℚ) := by exact_mod_cast hn
    linarith
  have hdenpos : 0 < (n : ℚ) - 1 := by
    have : (2 : ℚ) ≤ (n : ℚ) := by exact_mod_cast hn
    linarith
  have hne : ∀ f : ℕ → ℚ, (List.range n).map f ≠ [] := by
    intro f
    apply List.length_pos.mp
    simp
    omega
  have hfront : ∀ w ∈ (List.range n).map (front_weight n), (1/2 : ℚ) ≤ w := by
    intro w hw
    simp only [List.mem_map, List.mem_range] at hw
    obtain ⟨i, hi, rfl⟩ := hw
    unfold front_weight
    have hic : (i : ℚ) ≤ (n : ℚ) - 1 := by
      have : ((i : ℚ) + 1) ≤ (n : ℚ) := by exact_mod_cast hi
      linarith
    have hdiv : (1/2 : ℚ) * (i : ℚ) / ((n : ℚ) - 1) ≤ 1/2 := by
      rw [div_le_iff hdenpos]
      nlinarith [Nat.cast_nonneg (α := ℚ) i]
    linarith
  have hback : ∀ w ∈ (List.range n).map (back_weight n), (1/2 : ℚ) ≤ w := by
    intro w hw
    simp only [List.mem_map, List.mem_range] at hw
    obtain ⟨i, hi, rfl⟩ := hw
    unfold back_weight
    have hdiv : 0 ≤ (1/2 : ℚ) * (i : ℚ) / ((n : ℚ) - 1) :=
      div_nonneg (by positivity) (le_of_lt hdenpos)
    linarith
  have hmiddle : ∀ w ∈ (List.range n).map (middle_weight n), (1/2 : ℚ) ≤ w := by
    intro w hw
    simp only [List.mem_map, List.mem_range] at hw
    obtain ⟨i, hi, rfl⟩ := hw
    exact le_max_left _ _
  refine ⟨⟨rfl, ?_⟩, ⟨rfl, ?_⟩, ⟨rfl, ?_⟩, ⟨rfl, ?_⟩⟩
  · show (List.replicate n (tq / (n : ℚ))).sum = tq
    rw [List.sum_replicate, nsmul_eq_mul]
    exact mul_div_cancel₀ tq hn0
  · show (((List.range n).map (front_weight n)).map
      (fun w => tq * w / ((List.range n).map (front_weight n)).sum)).sum = tq
    exact sum_map_renorm tq _ (ne_of_gt (sum_pos_of_half_le hfront (hne _)))
  · show (((List.range n).map (back_weight n)).map
      (fun w => tq * w / ((List.range n).map (back_weight n)).sum)).sum = tq
    exact sum_map_renorm tq _ (ne_of_gt (sum_pos_of_half_le hback (hne _)))
  · show (((List.range n).map (middle_weight n)).map
      (fun w => tq * w / ((List.range n).map (middle_weight n)).sum)).sum = tq
    exact sum_map_renorm tq _ (ne_of_gt (sum_pos_of_half_le hmiddle (hne _)))

/-- Concrete instance for c6_volume_profile_renormalization at the fixed
chunk count 10 of place_twap_with_volume_profile and total 100, plus
direct evaluations of the front-loaded and middle-loaded sums. -/
theorem c6_volume_profile_renormalization_witness :
    2 ≤ 10 ∧
    (calculate_volume_profile 100 10 "FRONT_LOADED").sum = 100 ∧
    (calculate_volume_profile 100 10 "MIDDLE_LOADED").sum = 100 ∧
    ((calculate_volume_profile 100 10 "UNIFORM" = List.replicate 10 (100 / (10 : ℚ)) ∧
      (calculate_volume_profile 100 10 "UNIFORM").sum = 100) ∧
     (calculate_volume_profile 100 10 "FRONT_LOADED" =
        ((List.range 10).map (front_weight 10)).map
          (fun w => 100 * w / ((List.range 10).map (front_weight 10)).sum) ∧
      (calculate_volume_profile 100 10 "FRONT_LOADED").sum = 100) ∧
     (calculate_volume_profile 100 10 "BACK_LOADED" =
        ((List.range 10).map (back_weight 10)).map
          (fun w => 100 * w / ((List.range 10).map (back_weight 10)).sum) ∧
      (calculate_volume_profile 100 10 "BACK_LOADED").sum = 100) ∧
     (calculate_volume_profile 100 10 "MIDDLE_LOADED" =
        ((List.range 10).map (middle_weight 10)).map
          (fun w => 100 * w / ((List.range 10).map (middle_weight 10)).sum) ∧
      (calculate_volume_profile 100 10 "MIDDLE_LOADED").sum = 100)) :=
  ⟨by norm_num,
   by norm_num [calculate_volume_profile, List.range_succ,
     show ("FRONT_LOADED" = "UNIFORM") = False from by decide],
   by norm_num [calculate_volume_profile, List.range_succ, abs, max_def,
     show ("MIDDLE_LOADED" = "UNIFORM") = False from by decide,
     show ("MIDDLE_LOADED" = "FRONT_LOADED") = False from by decide,
     show ("MIDDLE_LOADED" = "BACK_LOADED") = False from by decide],
   c6_volume_profile_renormalization 100 10 (by norm_num)⟩

/-- C5: over the reals, the GEOMETRIC schedule of the source is the n
prices lower * r ^ i for the root r = (upper/lower) ^ (1/(n-1)); it starts
at lower, ends exactly at upper, and the quotient of consecutive prices is
the constant r. -/
theorem c5_geometric_grid_prices (lower_price upper_price : ℝ) (n : ℕ)
    (hl : 0 < lower_price) (hu : lower_price < upper_price) (hn : 2 ≤ n) :
    (geometric_grid_prices_real lower_price upper_price n).length = n ∧
    geometric_grid_prices_real lower_price upper_price n =
      (List.range n).map
        (fun i => lower_price * geom_root lower_price upper_price n ^ i) ∧
    lower_price * geom_root lower_price upper_price n ^ (0 : ℕ) = lower_price ∧
    lower_price * geom_root lower_price upper_price n ^ (n - 1) = upper_price ∧
    (∀ i : ℕ,
      lower_price * geom_root lower_price upper_price n ^ (i + 1) /
        (lower_price * geom_root lower_price upper_price n ^ i) =
      geom_root lower_price upper_price n) := by
  have hul : (0 : ℝ) < upper_price / lower_price :=
    div_pos (lt_trans hl hu) hl
  have hd : ((n : ℝ) - 1) ≠ 0 := by
    have : (2 : ℝ) ≤ (n : ℝ) := by exact_mod_cast hn
    linarith
  have hr : 0 < geom_root lower_price upper_price n :=
    Real.rpow_pos_of_pos hul _
  refine ⟨by simp [geometric_grid_prices_real], rfl, by simp, ?_, ?_⟩
  · unfold geom_root
    have hcast : ((n - 1 : ℕ) : ℝ) = (n : ℝ) - 1 := by
      rw [Nat.cast_sub (by omega : 1 ≤ n), Nat.cast_one]
    rw [← Real.rpow_natCast ((upper_price / lower_price) ^
        ((1 : ℝ) / ((n : ℝ) - 1))) (n - 1),
      ← Real.rpow_mul (le_of_lt hul), hcast,
      one_div_mul_cancel hd, Real.rpow_one, mul_comm,
      div_mul_cancel₀ upper_price (ne_of_gt hl)]
  · intro i
    rw [pow_succ]
    field_simp
    ring

/-- Concrete instance for c5_geometric_grid_prices: the specification
example bounds 100 and 200 with three levels. -/
theorem c5_geometric_grid_prices_witness :
    (0 : ℝ) < 100 ∧ (100 : ℝ) < 200 ∧ 2 ≤ 3 ∧
    ((geometric_grid_prices_real 100 200 3).length = 3 ∧
     geometric_grid_prices_real 100 200 3 =
       (List.range 3).map (fun i => 100 * geom_root 100 200 3 ^ i) ∧
     (100 : ℝ) * geom_root 100 200 3 ^ (0 : ℕ) = 100 ∧
     (100 : ℝ) * geom_root 100 200 3 ^ (3 - 1) = 200 ∧
     (∀ i : ℕ,
       (100 : ℝ) * geom_root 100 200 3 ^ (i + 1) /
         ((100 : ℝ) * geom_root 100 200 3 ^ i) = geom_root 100 200 3)) :=
  ⟨by norm_num, by norm_num, by norm_num,
   c5_geometric_grid_prices 100 200 3 (by norm_num) (by norm_num) (by norm_num)⟩

/-- C9: in both TWAP entry points, the reported average price is
total_cost / total_executed when total_executed is positive and exactly 0
when total_executed is 0, and the two totals are the sums of executedQty
and cummulativeQuoteQty over the successfully executed chunks only. -/
theorem c9_average_price_zero_guard :
    (∀ (submitM : MarketSubmit) (submitL : TwapLimitSubmit) (symbol side : String)
        (tq : ℚ) (dur n : ℤ) (ot : String) (price : Option ℚ) (tif : String)
        (r : TwapReport),
      place_twap_order submitM submitL symbol side tq dur n ot price tif = .ok r →
      (0 < r.total_executed → r.average_price = r.total_cost / r.total_executed) ∧
      (r.total_executed = 0 → r.average_price = 0) ∧
      r.total_executed = (r.executed_chunks.map (fun c => c.executed_qty)).sum ∧
      r.total_cost = (r.executed_chunks.map (fun c => c.cummulative_quote_qty)).sum) ∧
    (∀ (submitM : MarketSubmit) (submitL : TwapLimitSubmit) (symbol side : String)
        (tq : ℚ) (dur : ℤ) (vp ot : String) (price : Option ℚ)
        (r : TwapProfileReport),
      place_twap_with_volume_profile submitM submitL symbol side tq dur vp ot price
        = .ok r →
      (0 < r.total_executed → r.average_price = r.total_cost / r.total_executed) ∧
      (r.total_executed = 0 → r.average_price = 0) ∧
      r.total_executed = (r.executed_chunks.map (fun c => c.executed_qty)).sum ∧
      r.total_cost = (r.executed_chunks.map (fun c => c.cummulative_quote_qty)).sum) := by
  constructor
  · intro submitM submitL symbol side tq dur n ot price tif r h
    obtain ⟨sym, sd, tq2, price2, cq, _, _, _, _, _, _, _, _, _, hr⟩ :=
      place_twap_order_ok_elim h
    subst hr
    refine ⟨?_, ?_, by simp only [twap_place_loop_eq], by simp only [twap_place_loop_eq]⟩
    · intro hpos
      simp only [twap_place_loop_eq] at hpos ⊢
      rw [if_pos hpos]
    · intro h0
      simp only [twap_place_loop_eq] at h0 ⊢
      rw [if_neg (by rw [h0]; exact lt_irrefl 0)]
  · intro submitM submitL symbol side tq dur vp ot price r h
    obtain ⟨sym, sd, tq2, _, _, _, _, hr⟩ := place_twap_vp_ok_elim h
    subst hr
    refine ⟨?_, ?_, by simp only [twapvp_place_loop_eq], by simp only [twapvp_place_loop_eq]⟩
    · intro hpos
      simp only [twapvp_place_loop_eq] at hpos ⊢
      rw [if_pos hpos]
    · intro h0
      simp only [twapvp_place_loop_eq] at h0 ⊢
      rw [if_neg (by rw [h0]; exact lt_irrefl 0)]

theorem validate_quantity_chunk : validate_quantity (10 / ((5 : ℤ) : ℚ)) = .ok 2 := by
  norm_num [validate_quantity, min_quantity, max_quantity]

/-- Concrete instance for c9_average_price_zero_guard: a five-chunk market
TWAP run whose every chunk submission fails reports average price 0, and a
front-loaded volume-profile run is covered as well. -/
theorem c9_average_price_zero_guard_witness :
    place_twap_order sample_market_fail sample_twap_limit_fail "BTCUSDT" "SELL"
      10 30 5 "MARKET" none "GTC" =
      .ok (okOr (place_twap_order sample_market_fail sample_twap_limit_fail "BTCUSDT"
        "SELL" 10 30 5 "MARKET" none "GTC")) ∧
    (okOr (place_twap_order sample_market_fail sample_twap_limit_fail "BTCUSDT" "SELL"
      10 30 5 "MARKET" none "GTC")).average_price = 0 ∧
    ((0 < (okOr (place_twap_order sample_market_fail sample_twap_limit_fail "BTCUSDT"
        "SELL" 10 30 5 "MARKET" none "GTC")).total_executed →
      (okOr (place_twap_order sample_market_fail sample_twap_limit_fail "BTCUSDT" "SELL"
        10 30 5 "MARKET" none "GTC")).average_price =
      (okOr (place_twap_order sample_market_fail sample_twap_limit_fail "BTCUSDT" "SELL"
        10 30 5 "MARKET" none "GTC")).total_cost /
      (okOr (place_twap_order sample_market_fail sample_twap_limit_fail "BTCUSDT" "SELL"
        10 30 5 "MARKET" none "GTC")).total_executed) ∧
     ((okOr (place_twap_order sample_market_fail sample_twap_limit_fail "BTCUSDT" "SELL"
        10 30 5 "MARKET" none "GTC")).total_executed = 0 →
      (okOr (place_twap_order sample_market_fail sample_twap_limit_fail "BTCUSDT" "SELL"
        10 30 5 "MARKET" none "GTC")).average_price = 0) ∧
     (okOr (place_twap_order sample_market_fail sample_twap_limit_fail "BTCUSDT" "SELL"
        10 30 5 "MARKET" none "GTC")).total_executed =
       ((okOr (place_twap_order sample_market_fail sample_twap_limit_fail "BTCUSDT"
        "SELL" 10 30 5 "MARKET" none "GTC")).executed_chunks.map
          (fun c => c.executed_qty)).sum ∧
     (okOr (place_twap_order sample_market_fail sample_twap_limit_fail "BTCUSDT" "SELL"
        10 30 5 "MARKET" none "GTC")).total_cost =
       ((okOr (place_twap_order sample_market_fail sample_twap_limit_fail "BTCUSDT"
        "SELL" 10 30 5 "MARKET" none "GTC")).executed_chunks.map
          (fun c => c.cummulative_quote_qty)).sum) ∧
    place_twap_with_volume_profile sample_market_ok sample_twap_limit_ok "BTCUSDT" "BUY"
      10 30 "FRONT_LOADED" "MARKET" none =
      .ok (okOr (place_twap_with_volume_profile sample_market_ok sample_twap_limit_ok
        "BTCUSDT" "BUY" 10 30 "FRONT_LOADED" "MARKET" none)) ∧
    ((0 < (okOr (place_twap_with_volume_profile sample_market_ok sample_twap_limit_ok
        "BTCUSDT" "BUY" 10 30 "FRONT_LOADED" "MARKET" none)).total_executed →
      (okOr (place_twap_with_volume_profile sample_market_ok sample_twap_limit_ok
        "BTCUSDT" "BUY" 10 30 "FRONT_LOADED" "MARKET" none)).average_price =
      (okOr (place_twap_with_volume_profile sample_market_ok sample_twap_limit_ok
        "BTCUSDT" "BUY" 10 30 "FRONT_LOADED" "MARKET" none)).total_cost /
      (okOr (place_twap_with_volume_profile sample_market_ok sample_twap_limit_ok
        "BTCUSDT" "BUY" 10 30 "FRONT_LOADED" "MARKET" none)).total_executed) ∧
     ((okOr (place_twap_with_volume_profile sample_market_ok sample_twap_limit_ok
        "BTCUSDT" "BUY" 10 30 "FRONT_LOADED" "MARKET" none)).total_executed = 0 →
      (okOr (place_twap_with_volume_profile sample_market_ok sample_twap_limit_ok
        "BTCUSDT" "BUY" 10 30 "FRONT_LOADED" "MARKET" none)).average_price = 0) ∧
     (okOr (place_twap_with_volume_profile sample_market_ok sample_twap_limit_ok
        "BTCUSDT" "BUY" 10 30 "FRONT_LOADED" "MARKET" none)).total_executed =
       ((okOr (place_twap_with_volume_profile sample_market_ok sample_twap_limit_ok
        "BTCUSDT" "BUY" 10 30 "FRONT_LOADED" "MARKET" none)).executed_chunks.map
          (fun c => c.executed_qty)).sum ∧
     (okOr (place_twap_with_volume_profile sample_market_ok sample_twap_limit_ok
        "BTCUSDT" "BUY" 10 30 "FRONT_LOADED" "MARKET" none)).total_cost =
       ((okOr (place_twap_with_volume_profile sample_market_ok sample_twap_limit_ok
        "BTCUSDT" "BUY" 10 30 "FRONT_LOADED" "MARKET" none)).executed_chunks.map
          (fun c => c.cummulative_quote_qty)).sum) := by
  have hok1 : place_twap_order sample_market_fail sample_twap_limit_fail "BTCUSDT" "SELL"
      10 30 5 "MARKET" none "GTC" =
      .ok (okOr (place_twap_order sample_market_fail sample_twap_limit_fail "BTCUSDT"
        "SELL" 10 30 5 "MARKET" none "GTC")) :=
    eq_ok_okOr (place_twap_order_succeeds sample_market_fail sample_twap_limit_fail "GTC"
      validate_symbol_btc validate_side_sell validate_quantity_ten (by decide)
      (by simp) twap_validated_price_market (by norm_num) (by norm_num) (by norm_num)
      validate_quantity_chunk)
  have hok2 : place_twap_with_volume_profile sample_market_ok sample_twap_limit_ok
      "BTCUSDT" "BUY" 10 30 "FRONT_LOADED" "MARKET" none =
      .ok (okOr (place_twap_with_volume_profile sample_market_ok sample_twap_limit_ok
        "BTCUSDT" "BUY" 10 30 "FRONT_LOADED" "MARKET" none)) :=
    eq_ok_okOr (place_twap_vp_succeeds sample_market_ok sample_twap_limit_ok 30 "MARKET"
      none validate_symbol_btc validate_side_buy validate_quantity_ten (by decide))
  refine ⟨hok1, ?_, c9_average_price_zero_guard.1 sample_market_fail
      sample_twap_limit_fail "BTCUSDT" "SELL" 10 30 5 "MARKET" none "GTC" _ hok1,
    hok2, c9_average_price_zero_guard.2 sample_market_ok sample_twap_limit_ok "BTCUSDT"
      "BUY" 10 30 "FRONT_LOADED" "MARKET" none _ hok2⟩
  norm_num [place_twap_order, validate_symbol_btc, validate_side_sell,
    validate_quantity_ten, validate_quantity_two, twap_validated_price_market,
    validate_quantity_chunk, twap_place_loop, twap_chunk_submit,
    sample_market_fail, List.range_succ, okOr,
    show ((5 : ℤ).toNat = 5) from rfl,
    show (("MARKET" = "LIMIT") = False) from by decide,
    show (("MARKET" ∉ ["MARKET", "LIMIT"]) = False) from by decide]

theorem validate_quantity_ok {q q2 : ℚ} (h : validate_quantity q = .ok q2) : q2 = q := by
  unfold validate_quantity at h
  split_ifs at h
  rw [Except.ok.injEq] at h
  exact h.symm

theorem calculate_grid_quantities_length (tq : ℚ) (n : ℤ) (sd : String) :
    (calculate_grid_quantities tq n sd).length = n.toNat := by
  unfold calculate_grid_quantities
  split_ifs <;> simp

/-- C1: in every grid run and every TWAP run that returns a report, for
every submit function: the placed and failed lists are exactly the in
order filterings of the enumerated schedule by the outcome of the one
submission made for each leg (so each leg is attempted exactly once, in
ascending index order, and a failed leg never blocks a later leg); the two
lists partition the n legs, their 1-based indices are ascending
subsequences of [1..n], every leg index lands in exactly one of the two
lists, and the report's success rate is placed / n * 100. -/
theorem c1_executor_continuation :
    (∀ (submit : LimitSubmit) (gr : ℚ) (symbol side : String) (tq up lp : ℚ)
        (n : ℤ) (gt tif : String) (r : GridReport),
      place_grid_order submit gr symbol side tq up lp n gt tif = .ok r →
      r.placed_orders = ((r.grid_prices.zip r.grid_quantities).enum).filterMap
        (grid_placed_of submit r.symbol r.side tif) ∧
      r.failed_orders = ((r.grid_prices.zip r.grid_quantities).enum).filterMap
        (grid_failed_of submit r.symbol r.side tif) ∧
      r.placed_orders.length + r.failed_orders.length = n.toNat ∧
      (r.placed_orders.map (fun p => p.grid_index)).Sublist
        ((List.range n.toNat).map (fun k => k + 1)) ∧
      (r.failed_orders.map (fun f => f.grid_index)).Sublist
        ((List.range n.toNat).map (fun k => k + 1)) ∧
      (∀ (k : ℕ) (pq : ℚ × ℚ), (r.grid_prices.zip r.grid_quantities)[k]? = some pq →
        ((k + 1) ∈ r.placed_orders.map (fun p => p.grid_index) ↔
         ¬ (k + 1) ∈ r.failed_orders.map (fun f => f.grid_index))) ∧
      r.success_rate = (r.placed_orders.length : ℚ) / (n : ℚ) * 100) ∧
    (∀ (submitM : MarketSubmit) (submitL : TwapLimitSubmit) (symbol side : String)
        (tq : ℚ) (dur n : ℤ) (ot : String) (price : Option ℚ) (tif : String)
        (r : TwapReport),
      place_twap_order submitM submitL symbol side tq dur n ot price tif = .ok r →
      r.executed_chunks = (List.range n.toNat).filterMap
        (twap_exec_of (twap_chunk_submit submitM submitL r.symbol r.side r.order_type
          r.price tif) (r.total_quantity / (n : ℚ))) ∧
      r.failed_chunks = (List.range n.toNat).filterMap
        (twap_failed_of (twap_chunk_submit submitM submitL r.symbol r.side r.order_type
          r.price tif) (r.total_quantity / (n : ℚ))) ∧
      r.executed_chunks.length + r.failed_chunks.length = n.toNat ∧
      (r.executed_chunks.map (fun c => c.chunk_index)).Sublist
        ((List.range n.toNat).map (fun k => k + 1)) ∧
      (r.failed_chunks.map (fun c => c.chunk_index)).Sublist
        ((List.range n.toNat).map (fun k => k + 1)) ∧
      (∀ k : ℕ, k < n.toNat →
        ((k + 1) ∈ r.executed_chunks.map (fun c => c.chunk_index) ↔
         ¬ (k + 1) ∈ r.failed_chunks.map (fun c => c.chunk_index))) ∧
      r.success_rate = (r.executed_chunks.length : ℚ) / (n : ℚ) * 100) := by
  constructor
  · intro submit gr symbol side tq up lp n gt tif r h
    obtain ⟨sym, sd, tq2, up2, lp2, prices, h1, h2, h3, h4, h5, hle, hn2, hn50, h6, hr⟩ :=
      place_grid_order_ok_elim h
    subst hr
    have hziplen : (prices.zip (calculate_grid_quantities tq2 n sd)).length = n.toNat := by
      rw [List.length_zip, calculate_grid_prices_length h6,
        calculate_grid_quantities_length]
      omega
    have hmapidx :
        ((prices.zip (calculate_grid_quantities tq2 n sd)).enum).map
          (fun (x : ℕ × ℚ × ℚ) => x.1 + 1) =
        (List.range n.toNat).map (fun k => k + 1) := by
      rw [show (fun (x : ℕ × ℚ × ℚ) => x.1 + 1) =
          (fun k => k + 1) ∘ Prod.fst from rfl]
      rw [← List.map_map, List.enum_map_fst, hziplen]
    have hplaced :
        ((grid_place_loop submit sym sd tif
          ((prices.zip (calculate_grid_quantities tq2 n sd)).enum)).1.map
            (fun p => p.grid_index)) =
        ((prices.zip (calculate_grid_quantities tq2 n sd)).enum).filterMap
          (fun x => if (grid_leg_outcome submit sym sd tif x).isOk
            then some (x.1 + 1) else none) := by
      rw [grid_place_loop_eq, List.map_filterMap]
      exact List.filterMap_congr fun x _ => grid_placed_of_index submit sym sd tif x
    have hfailed :
        ((grid_place_loop submit sym sd tif
          ((prices.zip (calculate_grid_quantities tq2 n sd)).enum)).2.map
            (fun f => f.grid_index)) =
        ((prices.zip (calculate_grid_quantities tq2 n sd)).enum).filterMap
          (fun x => if !(grid_leg_outcome submit sym sd tif x).isOk
            then some (x.1 + 1) else none) := by
      rw [grid_place_loop_eq, List.map_filterMap]
      exact List.filterMap_congr fun x _ => grid_failed_of_index submit sym sd tif x
    refine ⟨by rw [grid_place_loop_eq], by rw [grid_place_loop_eq], ?_, ?_, ?_, ?_, rfl⟩
    · rw [grid_place_loop_eq]
      exact (filterMap_partition_length _ _
        (grid_placed_failed_isSome submit sym sd tif) _).trans
        (by rw [List.enum_length, hziplen])
    · rw [show ((grid_place_loop submit sym sd tif
          ((prices.zip (calculate_grid_quantities tq2 n sd)).enum)).1.map
            (fun p => p.grid_index)) = _ from hplaced, ← hmapidx]
      exact filterMap_guard_sublist _ _ _
    · rw [show ((grid_place_loop submit sym sd tif
          ((prices.zip (calculate_grid_quantities tq2 n sd)).enum)).2.map
            (fun f => f.grid_index)) = _ from hfailed, ← hmapidx]
      exact filterMap_guard_sublist _ _ _
    · intro k pq hk
      rw [show ((grid_place_loop submit sym sd tif
          ((prices.zip (calculate_grid_quantities tq2 n sd)).enum)).1.map
            (fun p => p.grid_index)) = _ from hplaced]
      rw [show ((grid_place_loop submit sym sd tif
          ((prices.zip (calculate_grid_quantities tq2 n sd)).enum)).2.map
            (fun f => f.grid_index)) = _ from hfailed]
      rw [mem_filterMap_guard_enum _ _ k pq hk, mem_filterMap_guard_enum _ _ k pq hk]
      cases (grid_leg_outcome submit sym sd tif (k, pq)).isOk <;> simp
  · intro submitM submitL symbol side tq dur n ot price tif r h
    obtain ⟨sym, sd, tq2, price2, cq, h1, h2, h3, hot, h4, hdur, hn2, hn100, h5, hr⟩ :=
      place_twap_order_ok_elim h
    have hcq : cq = tq2 / (n : ℚ) := validate_quantity_ok h5
    subst hr
    subst hcq
    have hexec :
        ((twap_place_loop (twap_chunk_submit submitM submitL sym sd ot price2 tif)
          (tq2 / (n : ℚ)) (List.range n.toNat)).executed_chunks.map
            (fun c => c.chunk_index)) =
        (List.range n.toNat).filterMap
          (fun i => if ((twap_chunk_submit submitM submitL sym sd ot price2 tif) i
            (tq2 / (n : ℚ))).isOk then some (i + 1) else none) := by
      rw [twap_place_loop_eq, List.map_filterMap]
      exact List.filterMap_congr fun i _ =>
        twap_exec_of_index (twap_chunk_submit submitM submitL sym sd ot price2 tif)
          (tq2 / (n : ℚ)) i
    have hfail :
        ((twap_place_loop (twap_chunk_submit submitM submitL sym sd ot price2 tif)
          (tq2 / (n : ℚ)) (List.range n.toNat)).failed_chunks.map
            (fun c => c.chunk_index)) =
        (List.range n.toNat).filterMap
          (fun i => if !((twap_chunk_submit submitM submitL sym sd ot price2 tif) i
            (tq2 / (n : ℚ))).isOk then some (i + 1) else none) := by
      rw [twap_place_loop_eq, List.map_filterMap]
      exact List.filterMap_congr fun i _ =>
        twap_failed_of_index (twap_chunk_submit submitM submitL sym sd ot price2 tif)
          (tq2 / (n : ℚ)) i
    have hmapidx : (List.range n.toNat).map (fun k => k + 1) =
        (List.range n.toNat).map (fun k => k + 1) := rfl
    refine ⟨by rw [twap_place_loop_eq], by rw [twap_place_loop_eq], ?_, ?_, ?_, ?_, rfl⟩
    · rw [twap_place_loop_eq]
      exact (filterMap_partition_length _ _
        (twap_exec_failed_isSome (twap_chunk_submit submitM submitL sym sd ot price2 tif)
          (tq2 / (n : ℚ))) _).trans (by simp)
    · rw [show ((twap_place_loop (twap_chunk_submit submitM submitL sym sd ot price2 tif)
          (tq2 / (n : ℚ)) (List.range n.toNat)).executed_chunks.map
            (fun c => c.chunk_index)) = _ from hexec]
      exact filterMap_guard_sublist _ _ _
    · rw [show ((twap_place_loop (twap_chunk_submit submitM submitL sym sd ot price2 tif)
          (tq2 / (n : ℚ)) (List.range n.toNat)).failed_chunks.map
            (fun c => c.chunk_index)) = _ from hfail]
      exact filterMap_guard_sublist _ _ _
    · intro k hk
      rw [show ((twap_place_loop (twap_chunk_submit submitM submitL sym sd ot price2 tif)
          (tq2 / (n : ℚ)) (List.range n.toNat)).executed_chunks.map
            (fun c => c.chunk_index)) = _ from hexec]
      rw [show ((twap_place_loop (twap_chunk_submit submitM submitL sym sd ot price2 tif)
          (tq2 / (n : ℚ)) (List.range n.toNat)).failed_chunks.map
            (fun c => c.chunk_index)) = _ from hfail]
      rw [mem_filterMap_guard_range _ _ k hk, mem_filterMap_guard_range _ _ k hk]
      cases ((twap_chunk_submit submitM submitL sym sd ot price2 tif) k
        (tq2 / (n : ℚ))).isOk <;> simp

/-- Concrete instance for c1_executor_continuation: the specification
example of a five-leg grid run whose submit function rejects exactly the
second leg gives four placed and one failed leg, indices in ascending
order, and a success rate of 80; a five-chunk TWAP run is covered as
well. -/
theorem c1_executor_continuation_witness :
    place_grid_order sample_submit_fail2 0 "BTCUSDT" "BUY" 1 200 100 5
      "ARITHMETIC" "GTC" =
      .ok (okOr (place_grid_order sample_submit_fail2 0 "BTCUSDT" "BUY" 1 200 100 5
        "ARITHMETIC" "GTC")) ∧
    ((okOr (place_grid_order sample_submit_fail2 0 "BTCUSDT" "BUY" 1 200 100 5
      "ARITHMETIC" "GTC")).placed_orders.length +
     (okOr (place_grid_order sample_submit_fail2 0 "BTCUSDT" "BUY" 1 200 100 5
      "ARITHMETIC" "GTC")).failed_orders.length = (5 : ℤ).toNat ∧
     (okOr (place_grid_order sample_submit_fail2 0 "BTCUSDT" "BUY" 1 200 100 5
      "ARITHMETIC" "GTC")).success_rate =
       ((okOr (place_grid_order sample_submit_fail2 0 "BTCUSDT" "BUY" 1 200 100 5
        "ARITHMETIC" "GTC")).placed_orders.length : ℚ) / ((5 : ℤ) : ℚ) * 100) ∧
    (okOr (place_grid_order sample_submit_fail2 0 "BTCUSDT" "BUY" 1 200 100 5
      "ARITHMETIC" "GTC")).success_rate = 80 ∧
    (okOr (place_grid_order sample_submit_fail2 0 "BTCUSDT" "BUY" 1 200 100 5
      "ARITHMETIC" "GTC")).placed_orders.map (fun p => p.grid_index) = [1, 3, 4, 5] ∧
    (okOr (place_grid_order sample_submit_fail2 0 "BTCUSDT" "BUY" 1 200 100 5
      "ARITHMETIC" "GTC")).failed_orders.map (fun f => f.grid_index) = [2] ∧
    place_twap_order sample_market_fail sample_twap_limit_fail "BTCUSDT" "SELL"
      10 30 5 "MARKET" none "GTC" =
      .ok (okOr (place_twap_order sample_market_fail sample_twap_limit_fail "BTCUSDT"
        "SELL" 10 30 5 "MARKET" none "GTC")) ∧
    ((okOr (place_twap_order sample_market_fail sample_twap_limit_fail "BTCUSDT" "SELL"
      10 30 5 "MARKET" none "GTC")).executed_chunks.length +
     (okOr (place_twap_order sample_market_fail sample_twap_limit_fail "BTCUSDT" "SELL"
      10 30 5 "MARKET" none "GTC")).failed_chunks.length = (5 : ℤ).toNat ∧
     (okOr (place_twap_order sample_market_fail sample_twap_limit_fail "BTCUSDT" "SELL"
      10 30 5 "MARKET" none "GTC")).success_rate =
       ((okOr (place_twap_order sample_market_fail sample_twap_limit_fail "BTCUSDT"
        "SELL" 10 30 5 "MARKET" none "GTC")).executed_chunks.length : ℚ) /
         ((5 : ℤ) : ℚ) * 100) := by
  have hok1 : place_grid_order sample_submit_fail2 0 "BTCUSDT" "BUY" 1 200 100 5
      "ARITHMETIC" "GTC" =
      .ok (okOr (place_grid_order sample_submit_fail2 0 "BTCUSDT" "BUY" 1 200 100 5
        "ARITHMETIC" "GTC")) :=
    eq_ok_okOr (place_grid_order_succeeds sample_submit_fail2 0 "GTC"
      validate_symbol_btc validate_side_buy validate_quantity_one
      validate_price_200 validate_price_100 (by norm_num) (by norm_num) (by norm_num)
      (by decide) (calculate_grid_prices_arith 0 100 200 5 (by decide)))
  have hok2 : place_twap_order sample_market_fail sample_twap_limit_fail "BTCUSDT"
      "SELL" 10 30 5 "MARKET" none "GTC" =
      .ok (okOr (place_twap_order sample_market_fail sample_twap_limit_fail "BTCUSDT"
        "SELL" 10 30 5 "MARKET" none "GTC")) :=
    eq_ok_okOr (place_twap_order_succeeds sample_market_fail sample_twap_limit_fail "GTC"
      validate_symbol_btc validate_side_sell validate_quantity_ten (by decide)
      (by simp) twap_validated_price_market (by norm_num) (by norm_num) (by norm_num)
      validate_quantity_chunk)
  have hc1 := c1_executor_continuation.1 sample_submit_fail2 0 "BTCUSDT" "BUY" 1 200 100
    5 "ARITHMETIC" "GTC" _ hok1
  have hc2 := c1_executor_continuation.2 sample_market_fail sample_twap_limit_fail
    "BTCUSDT" "SELL" 10 30 5 "MARKET" none "GTC" _ hok2
  refine ⟨hok1, ⟨hc1.2.2.1, hc1.2.2.2.2.2.2⟩, ?_, ?_, ?_,
    hok2, ⟨hc2.2.2.1, hc2.2.2.2.2.2.2⟩⟩ <;>
    norm_num [place_grid_order, validate_symbol_btc, validate_side_buy,
      validate_quantity_one, validate_price_100, validate_price_200,
      calculate_grid_prices, calculate_grid_quantities,
      List.range_succ, List.enum, List.enumFrom, grid_place_loop, grid_leg_side,
      sample_submit_fail2, okOr,
      show ((5 : ℤ).toNat = 5) from rfl,
      show (("ARITHMETIC" ∉ ["ARITHMETIC", "GEOMETRIC"]) = False) from by decide,
      show (("ARITHMETIC" = "ARITHMETIC") = True) from by decide,
      show (("BUY" = "BOTH") = False) from by decide]
